import Mathlib

/-!
Verification of the structural-metrics extraction engine and rule-based smell
classifier of the code-quality-assessment repository
(`src/analysis/python_analyzer.py` and `src/analysis/smell_detector.py`),
as a shallow embedding in Lean 4.

The Python analyzer walks a Python `ast` tree.  We embed the fragment of the
Python AST that the analyzer inspects as the inductive type `Ast` below, and
translate each analyzer method into a Lean function over `Ast` (plus explicit
inputs for the parts of the pipeline that read the file system, a subprocess,
or compute irrational reals such as entropies and standard deviations; those
are passed in as component records, mirroring how `_get_numerical_summary`
merges already-computed component dictionaries).
-/

namespace CQA

/-- The fragment of the Python `ast` node zoo inspected by
`PythonCodeAnalyzer`.  Constructors carry exactly the children the analyzer
reads: `functionDef` keeps name, argument names, body, async flag and the
`lineno`/`end_lineno` positions; `classDef` keeps name, base expressions and
body.  `constant` carries a flag telling whether the constant is a string
(used for docstring detection, `ast.get_docstring`). -/
inductive Ast : Type where
  | module        (body : List Ast)
  | classDef      (nm : String) (bases : List Ast) (body : List Ast)
  | functionDef   (nm : String) (args : List String) (body : List Ast)
                  (isAsync : Bool) (lineno endLineno : Nat)
  | ifStmt        (test : Ast) (body : List Ast) (orelse : List Ast)
  | forStmt       (iter : Ast) (body : List Ast) (orelse : List Ast)
  | whileStmt     (test : Ast) (body : List Ast) (orelse : List Ast)
  | tryStmt       (body : List Ast) (handlers : List Ast)
                  (orelse : List Ast) (finalbody : List Ast)
  | exceptHandler (body : List Ast)
  | withStmt      (items : List Ast) (body : List Ast)
  | ifExp         (test thenE elseE : Ast)
  | boolOp        (values : List Ast)
  | compClause    (iter : Ast)
  | call          (func : Ast) (args : List Ast)
  | name          (id : String)
  | attribute     (value : Ast) (attr : String)
  | assign        (targets : List Ast) (value : Ast)
  | annAssign     (target : Ast)
  | augAssign     (target : Ast)
  | globalStmt    (names : List String)
  | exprStmt      (value : Ast)
  | constant      (isStr : Bool)
  | passStmt

namespace Ast

mutual

/-- `ast.walk(node)`: the multiset of all nodes of the subtree, the node
itself included.  Python's `ast.walk` yields in BFS order; every use in the
analyzer is order-insensitive (counting and set construction), so we produce
the subtree in preorder. -/
def subnodes : Ast → List Ast
  | .module b            => .module b :: subnodesList b
  | .classDef n bs b     => .classDef n bs b :: (subnodesList bs ++ subnodesList b)
  | .functionDef n a b y l e => .functionDef n a b y l e :: subnodesList b
  | .ifStmt t b o        => .ifStmt t b o :: (subnodes t ++ subnodesList b ++ subnodesList o)
  | .forStmt i b o       => .forStmt i b o :: (subnodes i ++ subnodesList b ++ subnodesList o)
  | .whileStmt t b o     => .whileStmt t b o :: (subnodes t ++ subnodesList b ++ subnodesList o)
  | .tryStmt b h o f     => .tryStmt b h o f ::
      (subnodesList b ++ subnodesList h ++ subnodesList o ++ subnodesList f)
  | .exceptHandler b     => .exceptHandler b :: subnodesList b
  | .withStmt i b        => .withStmt i b :: (subnodesList i ++ subnodesList b)
  | .ifExp t x y         => .ifExp t x y :: (subnodes t ++ subnodes x ++ subnodes y)
  | .boolOp vs           => .boolOp vs :: subnodesList vs
  | .compClause i        => .compClause i :: subnodes i
  | .call f a            => .call f a :: (subnodes f ++ subnodesList a)
  | .name i              => [.name i]
  | .attribute v a       => .attribute v a :: subnodes v
  | .assign ts v         => .assign ts v :: (subnodesList ts ++ subnodes v)
  | .annAssign t         => .annAssign t :: subnodes t
  | .augAssign t         => .augAssign t :: subnodes t
  | .globalStmt ns       => [.globalStmt ns]
  | .exprStmt v          => .exprStmt v :: subnodes v
  | .constant s          => [.constant s]
  | .passStmt            => [.passStmt]

/-- `subnodes` mapped over a list of children. -/
def subnodesList : List Ast → List Ast
  | []      => []
  | a :: as => subnodes a ++ subnodesList as

end

end Ast

/-- The `isinstance` test of `_compute_cyclomatic_complexity`:
`(ast.If, ast.For, ast.While, ast.Try, ast.With, ast.IfExp, ast.BoolOp,
ast.ExceptHandler, ast.comprehension)`. -/
def isDecisionNode : Ast → Bool
  | .ifStmt _ _ _    => true
  | .forStmt _ _ _   => true
  | .whileStmt _ _ _ => true
  | .tryStmt _ _ _ _ => true
  | .withStmt _ _    => true
  | .ifExp _ _ _     => true
  | .boolOp _        => true
  | .exceptHandler _ => true
  | .compClause _    => true
  | _                => false

/-- `PythonCodeAnalyzer._compute_cyclomatic_complexity`: walk the whole
subtree of the node counting decision-bearing constructs, plus one. -/
def computeCyclomaticComplexity (node : Ast) : Nat :=
  (node.subnodes.countP isDecisionNode) + 1

mutual

/-- Formalisation of the specification's words (not of the source): count of
decision-bearing constructs with a depth-reset at each nested function/class
boundary, i.e. the count does NOT descend into nested `functionDef` or
`classDef` subtrees. -/
def ccResetCount : Ast → Nat
  | .functionDef _ _ _ _ _ _ => 0
  | .classDef _ _ _      => 0
  | .module b            => ccResetCountList b
  | .ifStmt t b o        => 1 + (ccResetCount t + ccResetCountList b + ccResetCountList o)
  | .forStmt i b o       => 1 + (ccResetCount i + ccResetCountList b + ccResetCountList o)
  | .whileStmt t b o     => 1 + (ccResetCount t + ccResetCountList b + ccResetCountList o)
  | .tryStmt b h o f     => 1 + (ccResetCountList b + ccResetCountList h +
                                 ccResetCountList o + ccResetCountList f)
  | .exceptHandler b     => 1 + ccResetCountList b
  | .withStmt i b        => 1 + (ccResetCountList i + ccResetCountList b)
  | .ifExp t x y         => 1 + (ccResetCount t + ccResetCount x + ccResetCount y)
  | .boolOp vs           => 1 + ccResetCountList vs
  | .compClause i        => 1 + ccResetCount i
  | .call f a            => ccResetCount f + ccResetCountList a
  | .name _              => 0
  | .attribute v _       => ccResetCount v
  | .assign ts v         => ccResetCountList ts + ccResetCount v
  | .annAssign t         => ccResetCount t
  | .augAssign t         => ccResetCount t
  | .globalStmt _        => 0
  | .exprStmt v          => ccResetCount v
  | .constant _          => 0
  | .passStmt            => 0

/-- `ccResetCount` summed over a list of children. -/
def ccResetCountList : List Ast → Nat
  | []      => 0
  | a :: as => ccResetCount a + ccResetCountList as

end

/-- Formalisation of the specification's words: per-function cyclomatic
complexity = 1 + decision count with depth-reset at nested function/class
boundaries. -/
def ccSpecDepthReset : Ast → Nat
  | .functionDef _ _ b _ _ _ => 1 + ccResetCountList b
  | a                        => 1 + ccResetCount a

/-- `subnodesList` distributes over list append. -/
theorem subnodesList_append (l₁ l₂ : List Ast) :
    Ast.subnodesList (l₁ ++ l₂) = Ast.subnodesList l₁ ++ Ast.subnodesList l₂ := by
  induction l₁ with
  | nil => simp [Ast.subnodesList]
  | cons a as ih => simp [Ast.subnodesList, ih]

/-- A function whose body contains an `if` inside a nested function: the
analyzer's complexity for the outer function. -/
def c2OuterExample : Ast :=
  .functionDef "outer" [] [.functionDef "inner" [] [.ifStmt (.name "c") [.passStmt] []] false 2 3] false 1 3

/-- Claim C2, counterexample: the claim says per-function cyclomatic
complexity is computed with a depth-reset at nested function/class
boundaries, so an `if` inside a nested function would not count toward the
enclosing function.  The code (`_compute_cyclomatic_complexity`) walks the
whole subtree with `ast.walk`, which has no such reset: for a function whose
only statement is a nested function containing one `if`, the code computes
complexity 2 while the claimed depth-reset rule gives 1. -/
theorem c2_counterexample :
    computeCyclomaticComplexity c2OuterExample = 2 ∧
    ccSpecDepthReset c2OuterExample = 1 ∧
    computeCyclomaticComplexity c2OuterExample ≠ ccSpecDepthReset c2OuterExample := by
  refine ⟨rfl, rfl, ?_⟩
  decide

/-- Claim C2, amended: per-function cyclomatic complexity is 1 + the count of
decision-bearing constructs in the function's entire subtree, with NO reset
at nested function/class boundaries: inserting a nested function into a
function's body adds the nested function's own decision count (its
complexity minus 1) to the enclosing function's complexity. -/
theorem c2_amended (n m : String) (a a' : List String) (y y' : Bool)
    (l e l' e' : Nat) (b₁ b₂ b₃ : List Ast) :
    computeCyclomaticComplexity (.functionDef n a (b₁ ++ .functionDef m a' b₂ y' l' e' :: b₃) y l e)
      = computeCyclomaticComplexity (.functionDef n a (b₁ ++ b₃) y l e)
        + (computeCyclomaticComplexity (.functionDef m a' b₂ y' l' e') - 1) := by
  simp only [computeCyclomaticComplexity, Ast.subnodes, Ast.subnodesList,
    subnodesList_append, List.countP_append, List.countP_cons, isDecisionNode]
  omega

/-! ## Size metrics (`_get_size_metrics`)

Docstring ranges are identified in the source from the AST node positions;
here they are an explicit input (a list of inclusive 0-based line ranges),
which covers every value the source can produce. -/

/-- Insertion step for sorting ranges (Python `sorted` on pairs is
lexicographic). -/
def insertRange (r : Nat × Nat) : List (Nat × Nat) → List (Nat × Nat)
  | [] => [r]
  | x :: xs =>
    if r.1 < x.1 ∨ (r.1 = x.1 ∧ r.2 ≤ x.2) then r :: x :: xs else x :: insertRange r xs

/-- Sort ranges lexicographically, as Python's `sorted(doc_ranges)`. -/
def sortRanges : List (Nat × Nat) → List (Nat × Nat)
  | [] => []
  | x :: xs => insertRange x (sortRanges xs)

/-- One step of the range-merge loop of `_get_size_metrics`: append the range
when disjoint from (and not adjacent to) the last merged range, otherwise
extend the last merged range. -/
def mergeStep (merged : List (Nat × Nat)) (r : Nat × Nat) : List (Nat × Nat) :=
  match merged.getLast? with
  | none => [r]
  | some last => if r.1 > last.2 + 1 then merged ++ [r]
                 else merged.dropLast ++ [(last.1, max last.2 r.2)]

/-- The merged docstring ranges of `_get_size_metrics`. -/
def mergeRanges (rs : List (Nat × Nat)) : List (Nat × Nat) :=
  (sortRanges rs).foldl mergeStep []

/-- Membership in `doc_lines_set`: some merged range contains the index and
the index is within the file (the `0 <= i < total_lines` guard). -/
def inDocSet (merged : List (Nat × Nat)) (total i : Nat) : Bool :=
  decide (i < total) && merged.any (fun r => decide (r.1 ≤ i) && decide (i ≤ r.2))

/-- The classification loop of `_get_size_metrics` over `enumerate(lines)`:
docstring lines are counted first, then blank (stripped empty), then comment
(stripped starts with `#`), else code.  Returns
(code_lines, comment_lines, blank_lines, docstring_lines). -/
def classifyLines (inDoc : Nat → Bool) : Nat → List String → Nat × Nat × Nat × Nat
  | _, [] => (0, 0, 0, 0)
  | i, line :: rest =>
    let r := classifyLines inDoc (i + 1) rest
    if inDoc i then (r.1, r.2.1, r.2.2.1, r.2.2.2 + 1)
    else
      let stripped := line.trim
      if stripped = "" then (r.1, r.2.1, r.2.2.1 + 1, r.2.2.2)
      else if stripped.startsWith "#" then (r.1, r.2.1 + 1, r.2.2.1, r.2.2.2)
      else (r.1 + 1, r.2.1, r.2.2.1, r.2.2.2)

/-- The size-metrics record of `_get_size_metrics`. -/
structure SizeMetrics where
  LOC : Nat
  SLOC : Nat
  CLOC : Nat
  DLOC : Nat
  blankLines : Nat
  commentDensity : ℚ

/-- `_get_size_metrics`, given the physical lines and the docstring ranges
collected from the AST. -/
def sizeMetricsOf (lines : List String) (docRanges : List (Nat × Nat)) : SizeMetrics :=
  let total := lines.length
  let merged := mergeRanges docRanges
  let r := classifyLines (inDocSet merged total) 0 lines
  { LOC := total, SLOC := r.1, CLOC := r.2.1, DLOC := r.2.2.2, blankLines := r.2.2.1,
    commentDensity := if total > 0 then (r.2.1 : ℚ) / total else 0 }

/-- Each enumerated line lands in exactly one of the four counters. -/
theorem classifyLines_sum (inDoc : Nat → Bool) (i : Nat) (lines : List String) :
    (classifyLines inDoc i lines).1 + (classifyLines inDoc i lines).2.1 +
      (classifyLines inDoc i lines).2.2.1 + (classifyLines inDoc i lines).2.2.2
      = lines.length := by
  induction lines generalizing i with
  | nil => simp [classifyLines]
  | cons line rest ih =>
    have h := ih (i + 1)
    simp only [classifyLines, List.length_cons]
    split_ifs <;> simp <;> omega

/-- Claim C9: the size metrics partition the physical lines: every line is
classified into exactly one of docstring, blank, comment, or code, so
SLOC + CLOC + DLOC + blank_lines = LOC for every input file and every set of
docstring ranges. -/
theorem c9_theorem (lines : List String) (docRanges : List (Nat × Nat)) :
    (sizeMetricsOf lines docRanges).SLOC + (sizeMetricsOf lines docRanges).CLOC +
      (sizeMetricsOf lines docRanges).DLOC + (sizeMetricsOf lines docRanges).blankLines
      = (sizeMetricsOf lines docRanges).LOC := by
  have h := classifyLines_sum (inDocSet (mergeRanges docRanges) lines.length) 0 lines
  simp only [sizeMetricsOf]
  omega

/-! ## Inheritance depth (`inheritance_depth` in `_get_object_oriented_metrics`)

The Python helper recurses through `class_map` with a shared mutable `seen`
set; we model the shared set by threading it through the computation, and the
implicit recursion stack by explicit fuel (`none` = fuel exhausted; the
sufficiency theorem for claim C7 shows the fuel used by the embedding always
suffices, i.e. the Python recursion terminates). -/

/-- Name of a `ClassDef` node (`cnode.name`). -/
def astClassName : Ast → String
  | .classDef n _ _ => n
  | _ => ""

/-- Base expressions of a `ClassDef` node (`cnode.bases`). -/
def astClassBases : Ast → List Ast
  | .classDef _ bs _ => bs
  | _ => []

/-- Body of a node, for the top-level `tree.body` iterations. -/
def astBody : Ast → List Ast
  | .module b            => b
  | .classDef _ _ b      => b
  | .functionDef _ _ b _ _ _ => b
  | _                    => []

/-- `isinstance(node, ast.ClassDef)`. -/
def isClassDefB : Ast → Bool
  | .classDef _ _ _ => true
  | _ => false

/-- `class_map`: the top-level `ClassDef` nodes of the tree, keyed by name
(`for node in self.tree.body: if isinstance(node, ast.ClassDef)`). -/
def classMapOf (tree : Ast) : List Ast := (astBody tree).filter isClassDefB

/-- `class_map[id]` lookup; a Python dict keeps the last binding for a
duplicated class name, hence the reversed search. -/
def lookupClass (classes : List Ast) (id : String) : Option Ast :=
  classes.reverse.find? (fun c => astClassName c == id)

/-- The test `isinstance(base, ast.Name) and base.id in class_map` of
`inheritance_depth`, returning the resolved class when it succeeds. -/
def resolvedBase (classes : List Ast) : Ast → Option Ast
  | .name id => lookupClass classes id
  | _ => none

/-- One iteration of the `for base in cnode.bases` loop of
`inheritance_depth`: a base that is a `Name` resolvable in `class_map`
(`resolvedBase`) contributes `1 + recursive depth` through the recursive
call `rec`, any other base contributes `1`; the accumulator carries the
running maximum `depth` together with the threaded `seen` set, and `none`
(exhausted fuel in the recursive call) aborts the fold. -/
def ditStep (classes : List Ast) (rec : List String → Ast → Option (Nat × List String))
    (acc : Option (Nat × List String)) (b : Ast) : Option (Nat × List String) :=
  acc.bind fun r =>
    (resolvedBase classes b).elim (some (max r.1 1, r.2)) fun cb =>
      (rec r.2 cb).map fun s => (max r.1 (1 + s.1), s.2)

/-- `inheritance_depth(cnode, seen)` with explicit fuel modelling the Python
recursion stack (`none` = fuel exhausted): return 0 for a class already in
`seen`, otherwise add the class name to `seen` and fold over the bases with
`ditStep`.  The (in Python shared, mutable) `seen` set is threaded through
the computation and returned with the depth. -/
def inheritanceDepthFuel (classes : List Ast) : Nat → List String → Ast → Option (Nat × List String)
  | 0, _, _ => none
  | fuel + 1, seen, c =>
    if astClassName c ∈ seen then some (0, seen)
    else
      (astClassBases c).foldl (ditStep classes (inheritanceDepthFuel classes fuel))
        (some (0, astClassName c :: seen))

/-- `inheritance_depth(cnode)` as called from the per-class loop (fresh
`seen`), with the fuel the C7 sufficiency theorem proves adequate. -/
def inheritanceDepthTop (classes : List Ast) (c : Ast) : Option Nat :=
  (inheritanceDepthFuel classes (classes.length + 1) [] c).map (fun r => r.1)

/-- Measure for the DIT recursion: class names not yet in `seen`. -/
def unseenCount (classes : List Ast) (seen : List String) : Nat :=
  ((classes.map astClassName).dedup.filter fun n => !decide (n ∈ seen)).length

/-- A successful `lookupClass` returns a member of `classes` whose name is
the looked-up key. -/
theorem lookupClass_mem {classes : List Ast} {id : String} {cb : Ast}
    (h : lookupClass classes id = some cb) : cb ∈ classes ∧ astClassName cb = id := by
  unfold lookupClass at h
  have h1 := List.mem_of_find?_eq_some h
  have h2 := List.find?_some h
  exact ⟨List.mem_reverse.mp h1, by simpa using h2⟩

/-- A resolved base is a member of `classes`. -/
theorem resolvedBase_mem {classes : List Ast} {b cb : Ast}
    (h : resolvedBase classes b = some cb) : cb ∈ classes := by
  cases b <;> simp only [resolvedBase] at h <;> first
    | exact (lookupClass_mem h).1
    | exact absurd h (by simp)

/-- Helper: length of a cons-filter when the head is kept. -/
theorem filter_cons_length_pos {s : List String} {a : String} (as : List String)
    (h : a ∉ s) :
    (List.filter (fun n => !decide (n ∈ s)) (a :: as)).length
      = (List.filter (fun n => !decide (n ∈ s)) as).length + 1 := by
  simp [List.filter_cons, h]

/-- Helper: length of a cons-filter when the head is dropped. -/
theorem filter_cons_length_neg {s : List String} {a : String} (as : List String)
    (h : a ∈ s) :
    (List.filter (fun n => !decide (n ∈ s)) (a :: as)).length
      = (List.filter (fun n => !decide (n ∈ s)) as).length := by
  simp [List.filter_cons, h]

/-- Growing `seen` cannot increase the filtered count. -/
theorem filter_not_mem_length_mono (l : List String) {s t : List String} (hst : s ⊆ t) :
    (l.filter fun n => !decide (n ∈ t)).length ≤ (l.filter fun n => !decide (n ∈ s)).length := by
  induction l with
  | nil => simp
  | cons a as ih =>
    by_cases has : a ∈ s
    · rw [filter_cons_length_neg as has, filter_cons_length_neg as (hst has)]
      exact ih
    · by_cases hat : a ∈ t
      · rw [filter_cons_length_neg as hat, filter_cons_length_pos as has]
        omega
      · rw [filter_cons_length_pos as hat, filter_cons_length_pos as has]
        omega

/-- Adding an unseen class name strictly decreases the filtered count. -/
theorem filter_not_mem_length_lt {l seen : List String} {nm : String}
    (hl : nm ∈ l) (hns : nm ∉ seen) :
    (l.filter fun n => !decide (n ∈ nm :: seen)).length <
      (l.filter fun n => !decide (n ∈ seen)).length := by
  induction l with
  | nil => simp at hl
  | cons a as ih =>
    have hsub : seen ⊆ nm :: seen := fun x hx => List.mem_cons_of_mem _ hx
    by_cases hanm : a = nm
    · have h1 : a ∈ nm :: seen := by rw [hanm]; exact List.mem_cons_self _ _
      have h2 : a ∉ seen := by rw [hanm]; exact hns
      rw [filter_cons_length_neg as h1, filter_cons_length_pos as h2]
      have := filter_not_mem_length_mono as hsub
      omega
    · have ha : nm ∈ as := by
        rcases List.mem_cons.mp hl with h | h
        · exact absurd h.symm hanm
        · exact h
      by_cases has : a ∈ seen
      · rw [filter_cons_length_neg as (List.mem_cons_of_mem _ has), filter_cons_length_neg as has]
        exact ih ha
      · have hat : a ∉ nm :: seen := by
          intro hmem
          rcases List.mem_cons.mp hmem with h | h
          · exact hanm h
          · exact has h
        rw [filter_cons_length_pos as hat, filter_cons_length_pos as has]
        have := ih ha
        omega

/-- `unseenCount` decreases strictly when an unseen class name enters `seen`. -/
theorem unseenCount_cons_lt {classes : List Ast} {seen : List String} {c : Ast}
    (hc : c ∈ classes) (hns : astClassName c ∉ seen) :
    unseenCount classes (astClassName c :: seen) < unseenCount classes seen :=
  filter_not_mem_length_lt (List.mem_dedup.mpr (List.mem_map_of_mem _ hc)) hns

/-- `unseenCount` is monotone under `seen` growth. -/
theorem unseenCount_mono {classes : List Ast} {s t : List String} (hst : s ⊆ t) :
    unseenCount classes t ≤ unseenCount classes s :=
  filter_not_mem_length_mono _ hst

/-- Fuel sufficiency and a value bound for the DIT recursion: with enough
fuel relative to the unseen class names, `inheritance_depth` returns a value
bounded by the number of unseen class names, and only grows `seen`.  The
second conjunct is the corresponding statement for the bases fold. -/
theorem dit_fuel_spec (classes : List Ast) :
    ∀ fuel : Nat,
      (∀ seen c, c ∈ classes → unseenCount classes seen < fuel →
        ∃ d seen', inheritanceDepthFuel classes fuel seen c = some (d, seen') ∧
          d ≤ unseenCount classes seen ∧ seen ⊆ seen') ∧
      (∀ bases : List Ast, ∀ seen depth, unseenCount classes seen < fuel →
        ∃ r seen',
          bases.foldl (ditStep classes (inheritanceDepthFuel classes fuel)) (some (depth, seen))
            = some (r, seen') ∧
          r ≤ max depth (unseenCount classes seen + 1) ∧ seen ⊆ seen') := by
  intro fuel
  induction fuel with
  | zero =>
    exact ⟨fun seen c _ h => absurd h (by omega), fun bases seen depth h => absurd h (by omega)⟩
  | succ f IH =>
    have hidf : ∀ seen c, c ∈ classes → unseenCount classes seen < f + 1 →
        ∃ d seen', inheritanceDepthFuel classes (f + 1) seen c = some (d, seen') ∧
          d ≤ unseenCount classes seen ∧ seen ⊆ seen' := by
      intro seen c hc hlt
      by_cases hseen : astClassName c ∈ seen
      · exact ⟨0, seen, by simp [inheritanceDepthFuel, hseen], by omega, fun x hx => hx⟩
      · have hdec := unseenCount_cons_lt hc hseen
        obtain ⟨r, seen'', heq, hr, hsub⟩ :=
          IH.2 (astClassBases c) (astClassName c :: seen) 0 (by omega)
        refine ⟨r, seen'', ?_, by omega,
          fun x hx => hsub (List.mem_cons_of_mem _ hx)⟩
        rw [show inheritanceDepthFuel classes (f + 1) seen c
            = (astClassBases c).foldl (ditStep classes (inheritanceDepthFuel classes f))
                (some (0, astClassName c :: seen)) by
          simp [inheritanceDepthFuel, hseen]]
        exact heq
    refine ⟨hidf, ?_⟩
    intro bases
    induction bases with
    | nil =>
      exact fun seen depth hlt => ⟨depth, seen, rfl, le_max_left _ _, fun x hx => hx⟩
    | cons b bs ihbs =>
      intro seen depth hlt
      rw [List.foldl_cons]
      cases hres : resolvedBase classes b with
      | none =>
        have hstep : ditStep classes (inheritanceDepthFuel classes (f + 1))
            (some (depth, seen)) b = some (max depth 1, seen) := by
          simp [ditStep, hres]
        obtain ⟨r, seen', heq, hr, hsub⟩ := ihbs seen (max depth 1) hlt
        exact ⟨r, seen', by rw [hstep]; exact heq, by omega, hsub⟩
      | some cb =>
        obtain ⟨d, seen₂, heq₁, hd, hsub₁⟩ := hidf seen cb (resolvedBase_mem hres) hlt
        have hstep : ditStep classes (inheritanceDepthFuel classes (f + 1))
            (some (depth, seen)) b = some (max depth (1 + d), seen₂) := by
          simp [ditStep, hres, heq₁]
        have hmono := @unseenCount_mono classes _ _ hsub₁
        obtain ⟨r, seen₃, heq₂, hr, hsub₂⟩ := ihbs seen₂ (max depth (1 + d)) (by omega)
        exact ⟨r, seen₃, by rw [hstep]; exact heq₂, by omega,
          fun x hx => hsub₂ (hsub₁ hx)⟩

/-- `unseenCount` with fresh `seen` is at most the number of classes. -/
theorem unseenCount_nil_le (classes : List Ast) :
    unseenCount classes [] ≤ classes.length := by
  unfold unseenCount
  have h1 : ((classes.map astClassName).dedup.filter fun n => !decide (n ∈ ([] : List String)))
      = (classes.map astClassName).dedup := by
    apply List.filter_eq_self.mpr
    intro a _
    simp
  rw [h1]
  calc (classes.map astClassName).dedup.length
      ≤ (classes.map astClassName).length := (List.dedup_sublist _).length_le
    _ = classes.length := List.length_map _ _

/-- Claim C7: for every analyzed file, the DIT computation terminates for
every class of the file's class map — even with self-referential or mutually
recursive inheritance declarations — and returns a value bounded by the
number of classes in the file.  (The fuel used by `inheritanceDepthTop`
models the Python recursion stack; a `some` result means the recursion
terminates.  A class visited twice contributes 0 by the `seen` guard in
`inheritanceDepthFuel`.) -/
theorem c7_theorem (tree c : Ast) (hc : c ∈ classMapOf tree) :
    ∃ d : Nat, inheritanceDepthTop (classMapOf tree) c = some d ∧
      d ≤ (classMapOf tree).length := by
  have hle := unseenCount_nil_le (classMapOf tree)
  obtain ⟨d, seen', heq, hd, _⟩ :=
    (dit_fuel_spec (classMapOf tree) ((classMapOf tree).length + 1)).1 [] c hc (by omega)
  exact ⟨d, by simp [inheritanceDepthTop, heq], by omega⟩

/-- A file declaring `class A(B)` and `class B(A)`: mutually recursive
inheritance. -/
def c7ExTree : Ast :=
  .module [.classDef "A" [.name "B"] [.passStmt], .classDef "B" [.name "A"] [.passStmt]]

/-- Claim C7, witness: the termination/boundedness theorem instantiated at
the mutually recursive two-class file, for class `A`. -/
theorem c7_witness :
    ∃ d : Nat, inheritanceDepthTop (classMapOf c7ExTree) (.classDef "A" [.name "B"] [.passStmt]) = some d ∧
      d ≤ (classMapOf c7ExTree).length :=
  c7_theorem c7ExTree _ (List.mem_cons_self _ _)

/-- A file declaring only `class B(C)` where `C` is not defined in the
file: `B`'s base list contains only a name not resolvable within the file. -/
def c3ExTree : Ast := .module [.classDef "B" [.name "C"] [.passStmt]]

/-- Claim C3, counterexample: the claim says a class whose base list contains
only names not resolvable within the file has DIT 0; the code
(`inheritance_depth`) gives `depth = max(depth, 1)` for every unresolvable
base, so `class B(C)` with undefined `C` gets DIT 1, not 0. -/
theorem c3_counterexample :
    inheritanceDepthTop (classMapOf c3ExTree) (.classDef "B" [.name "C"] [.passStmt]) = some 1 ∧
    inheritanceDepthTop (classMapOf c3ExTree) (.classDef "B" [.name "C"] [.passStmt]) ≠ some 0 := by
  exact ⟨by decide, by decide⟩

/-- The bases fold over bases none of which resolves in `class_map`:
each contributes exactly 1 to the running maximum. -/
theorem dit_unresolvable_fold (classes : List Ast) (fuel : Nat) :
    ∀ bases : List Ast, (∀ b ∈ bases, resolvedBase classes b = none) →
      ∀ seen depth,
        bases.foldl (ditStep classes (inheritanceDepthFuel classes fuel)) (some (depth, seen))
          = some (if bases.isEmpty then depth else max depth 1, seen) := by
  intro bases
  induction bases with
  | nil => intro _ seen depth; rfl
  | cons b bs ih =>
    intro hall seen depth
    rw [List.foldl_cons]
    have hres := hall b (List.mem_cons_self _ _)
    have hstep : ditStep classes (inheritanceDepthFuel classes fuel)
        (some (depth, seen)) b = some (max depth 1, seen) := by
      simp [ditStep, hres]
    rw [hstep, ih (fun x hx => hall x (List.mem_cons_of_mem _ hx)) seen (max depth 1)]
    cases bs with
    | nil => simp
    | cons b' bs' =>
      have hmax : max (max depth 1) 1 = max depth 1 := by omega
      simp [hmax]

/-- Claim C3, amended (narrowed to exactly what the counterexample forces):
a base that does NOT resolve to an in-file class — a non-name base or a
name not defined at the file's top level — contributes 1, not 0, to the
class's DIT.  Hence for a class none of whose bases resolves in-file, DIT
is 0 when the base list is empty and exactly 1 otherwise, whereas the claim
predicted 0 in both cases.  (No assertion is made here about classes with
resolvable bases: one `seen` set is shared across the sibling-base loop, so
the claim's formula `DIT = 1 + max(DIT of resolvable bases)` is not a fact
of the code in general, and this theorem's hypothesis deliberately excludes
that case.) -/
theorem c3_amended (classes : List Ast) (nm : String) (bases body' : List Ast)
    (hun : ∀ b ∈ bases, resolvedBase classes b = none) :
    (bases = [] → inheritanceDepthTop classes (.classDef nm bases body') = some 0) ∧
    (bases ≠ [] → inheritanceDepthTop classes (.classDef nm bases body') = some 1) := by
  have hfold := dit_unresolvable_fold classes classes.length bases hun [nm] 0
  have htop : inheritanceDepthTop classes (.classDef nm bases body')
      = some (if bases.isEmpty then 0 else 1) := by
    unfold inheritanceDepthTop
    rw [show inheritanceDepthFuel classes (classes.length + 1) [] (.classDef nm bases body')
        = bases.foldl (ditStep classes (inheritanceDepthFuel classes classes.length))
            (some (0, [nm])) by
      simp [inheritanceDepthFuel, astClassName, astClassBases]]
    rw [hfold]
    cases bases <;> simp
  refine ⟨fun h => ?_, fun h => ?_⟩
  · subst h; simpa using htop
  · rw [htop]
    cases bases with
    | nil => exact absurd rfl h
    | cons b' bs' => simp

/-- Claim C3, amended, witness: the amended theorem applied to the concrete
single-class file `class B(C)` with `C` undefined: DIT is 1. -/
theorem c3_amended_witness :
    inheritanceDepthTop (classMapOf c3ExTree) (.classDef "B" [.name "C"] [.passStmt]) = some 1 := by
  refine (c3_amended (classMapOf c3ExTree) "B" [.name "C"] [.passStmt] ?_).2 (by simp)
  intro b hb
  rw [List.mem_singleton] at hb
  subst hb
  rfl

/-! ## Call-graph maximum depth (`depth` in `_compute_call_graph_metrics`)

The analyzer's `depth(u, visited)` is a DFS with a per-root visited set and a
memo dict shared across roots.  We model the graph as an association list
from qualified names to successor lists, the memo as an association list,
the visited set as a list, and the recursion stack as explicit fuel. -/

/-- `edges.get(u, [])` over the association-list call graph. -/
def edgesGet (g : List (String × List String)) (u : String) : List String :=
  ((g.find? (fun p => p.1 == u)).map (fun p => p.2)).getD []

/-- One iteration of the `for v in edges.get(u, [])` loop of `depth`: a
target already on the current path is skipped (`continue`, contributing 0),
otherwise `1 + depth(v)` enters the running maximum; the memo is threaded,
and `none` (exhausted fuel in the recursive call) aborts the fold. -/
def depthStep (visited : List String)
    (rec : List (String × Nat) → String → Option (Nat × List (String × Nat)))
    (acc : Option (Nat × List (String × Nat))) (v : String) :
    Option (Nat × List (String × Nat)) :=
  acc.bind fun r =>
    if v ∈ visited then some r
    else (rec r.2 v).map fun s => (max r.1 (1 + s.1), s.2)

/-- `depth(u, visited)` with explicit fuel modelling the Python recursion
stack (`none` = fuel exhausted): a memo hit returns immediately; otherwise
`u` joins the current path, the successors are folded with `depthStep`, and
the resulting maximum is memoized before returning. -/
def depthFuel (g : List (String × List String)) :
    Nat → List (String × Nat) → List String → String → Option (Nat × List (String × Nat))
  | 0, _, _, _ => none
  | fuel + 1, memo, visited, u =>
    match memo.lookup u with
    | some d => some (d, memo)
    | none =>
      ((edgesGet g u).foldl
          (depthStep (u :: visited) (fun m v => depthFuel g fuel m (u :: visited) v))
          (some (0, memo))).map
        fun r => (r.1, (u, r.1) :: r.2)

/-- The per-root loop `for n in names: d = depth(n, set())` with the memo
shared across roots, collecting every root's depth. -/
def allCallDepths (names : List String) (g : List (String × List String)) :
    Option (List Nat × List (String × Nat)) :=
  names.foldl
    (fun acc n => acc.bind fun r =>
      (depthFuel g (names.dedup.length + 1) r.2 [] n).map fun s => (r.1 ++ [s.1], s.2))
    (some ([], []))

/-- Successors delivered by `edgesGet` are targets recorded in the graph. -/
theorem edgesGet_subset {names : List String} {g : List (String × List String)}
    (hg : ∀ p ∈ g, ∀ v ∈ p.2, v ∈ names) (u : String) :
    ∀ v ∈ edgesGet g u, v ∈ names := by
  intro v hv
  unfold edgesGet at hv
  cases hfind : g.find? (fun p => p.1 == u) with
  | none => rw [hfind] at hv; simp at hv
  | some p =>
    rw [hfind] at hv
    simp at hv
    exact hg p (List.mem_of_find?_eq_some hfind) v hv

/-- Fuel sufficiency for the call-graph depth search: with fuel exceeding
the number of node names not on the current path, `depth` always returns
(the visited-set guard prevents unbounded recursion through cycles).  The
second conjunct is the corresponding statement for the successor fold. -/
theorem depth_fuel_spec (names : List String) (g : List (String × List String))
    (hg : ∀ p ∈ g, ∀ v ∈ p.2, v ∈ names) :
    ∀ fuel : Nat,
      (∀ memo visited u, u ∈ names → u ∉ visited →
        (names.dedup.filter fun n => !decide (n ∈ visited)).length < fuel →
        ∃ d memo', depthFuel g fuel memo visited u = some (d, memo')) ∧
      (∀ succs : List String, (∀ v ∈ succs, v ∈ names) →
        ∀ visited' memo maxd,
        (names.dedup.filter fun n => !decide (n ∈ visited')).length < fuel →
        ∃ r memo',
          succs.foldl (depthStep visited' (fun m v => depthFuel g fuel m visited' v))
            (some (maxd, memo)) = some (r, memo')) := by
  intro fuel
  induction fuel with
  | zero =>
    exact ⟨fun memo visited u _ _ h => absurd h (by omega),
           fun succs _ visited' memo maxd h => absurd h (by omega)⟩
  | succ f IH =>
    have hidf : ∀ memo visited u, u ∈ names → u ∉ visited →
        (names.dedup.filter fun n => !decide (n ∈ visited)).length < f + 1 →
        ∃ d memo', depthFuel g (f + 1) memo visited u = some (d, memo') := by
      intro memo visited u hu hnv hlt
      cases hmemo : memo.lookup u with
      | some d =>
        exact ⟨d, memo, by simp [depthFuel, hmemo]⟩
      | none =>
        have hdec := filter_not_mem_length_lt (List.mem_dedup.mpr hu) hnv
        obtain ⟨r, memo', heq⟩ :=
          IH.2 (edgesGet g u) (edgesGet_subset hg u) (u :: visited) memo 0 (by omega)
        refine ⟨r, (u, r) :: memo', ?_⟩
        rw [show depthFuel g (f + 1) memo visited u
            = ((edgesGet g u).foldl
                (depthStep (u :: visited) (fun m v => depthFuel g f m (u :: visited) v))
                (some (0, memo))).map (fun r => (r.1, (u, r.1) :: r.2)) by
          simp [depthFuel, hmemo]]
        rw [heq]
        rfl
    refine ⟨hidf, ?_⟩
    intro succs
    induction succs with
    | nil =>
      exact fun _ visited' memo maxd _ => ⟨maxd, memo, rfl⟩
    | cons v vs ihvs =>
      intro hvs visited' memo maxd hlt
      rw [List.foldl_cons]
      by_cases hvv : v ∈ visited'
      · have hstep : depthStep visited' (fun m w => depthFuel g (f + 1) m visited' w)
            (some (maxd, memo)) v = some (maxd, memo) := by
          simp [depthStep, hvv]
        obtain ⟨r, memo', heq⟩ :=
          ihvs (fun w hw => hvs w (List.mem_cons_of_mem _ hw)) visited' memo maxd hlt
        exact ⟨r, memo', by rw [hstep]; exact heq⟩
      · obtain ⟨d, memo₂, heq₁⟩ :=
          hidf memo visited' v (hvs v (List.mem_cons_self _ _)) hvv hlt
        have hstep : depthStep visited' (fun m w => depthFuel g (f + 1) m visited' w)
            (some (maxd, memo)) v = some (max maxd (1 + d), memo₂) := by
          simp [depthStep, hvv, heq₁]
        obtain ⟨r, memo', heq₂⟩ :=
          ihvs (fun w hw => hvs w (List.mem_cons_of_mem _ hw)) visited' memo₂
            (max maxd (1 + d)) hlt
        exact ⟨r, memo', by rw [hstep]; exact heq₂⟩

/-- Claim C6: for every intra-file call graph whose recorded call targets
are graph nodes — cyclic graphs included — and for every root node, the
memoized DFS terminates and returns a (finite, non-negative) depth: the
fuel `names.dedup.length + 1` models the deepest possible Python recursion,
and a `some` result means the recursion terminates.  An edge back to a node
already on the current path is skipped by the visited-set guard in
`depthStep`, contributing 0 instead of recursing. -/
theorem c6_theorem (names : List String) (g : List (String × List String)) (u : String)
    (hg : ∀ p ∈ g, ∀ v ∈ p.2, v ∈ names) (hu : u ∈ names) :
    ∃ d memo', depthFuel g (names.dedup.length + 1) [] [] u = some (d, memo') := by
  have hfull : (names.dedup.filter fun n => !decide (n ∈ ([] : List String)))
      = names.dedup := by
    apply List.filter_eq_self.mpr
    intro a _
    simp
  refine (depth_fuel_spec names g hg (names.dedup.length + 1)).1 [] [] u hu (by simp) ?_
  rw [hfull]
  omega

/-- Claim C6, witness: the termination theorem applied to the cyclic call
graph `A` calls `B`, `B` calls `A`, rooted at `A`. -/
theorem c6_witness :
    ∃ d memo', depthFuel [("A", ["B"]), ("B", ["A"])]
      ((["A", "B"] : List String).dedup.length + 1) [] [] "A" = some (d, memo') :=
  c6_theorem ["A", "B"] [("A", ["B"]), ("B", ["A"])] "A" (by decide) (by decide)

/-! ## The rule-based smell classifier (`smell_detector.py`) -/

/-- Values stored in a NumericalSummary record (a Python dict holds
heterogeneous values: numbers, booleans, strings, None, lists, dicts). -/
inductive Val : Type where
  | num  (q : ℚ)
  | b    (x : Bool)
  | s    (x : String)
  | null
  | list (xs : List Val)
  | dict (xs : List (String × Val))

/-- One smell finding: the `{"type": ..., "severity": ...}` dict appended by
`detect_smells_from_summary`. -/
structure Finding where
  type : String
  severity : String
  deriving DecidableEq

/-- The typed view of the NumericalSummary keys read by
`detect_smells_from_summary`, with the numeric values the pipeline stores
under them.  `cross_file_call_edges` stays an untyped `Val` because the
detector itself guards it with `isinstance(..., list)`. -/
structure SummaryView where
  lines_of_code : ℚ
  functions : ℚ
  classes : ℚ
  max_lines_per_function : ℚ
  max_cyclomatic_ratio : ℚ
  max_nesting_level : ℚ
  large_parameter_list_indicator : Bool
  mean_param_entropy : ℚ
  average_methods_per_class : ℚ
  mean_lines_per_class : ℚ
  cross_file_call_edges : Val
  inter_file_coupling : ℚ
  average_cyclomatic_complexity : ℚ
  nesting_variance : ℚ
  documentation_coverage : ℚ
  comment_percentage : ℚ
  comment_code_mismatch_score : ℚ
  globals_declared : ℚ
  global_usages_total : ℚ
  external_vs_internal_field_access_ratio : ℚ
  commit_bursts : ℚ
  pep8_violations : ℚ
  irregularity_score : ℚ
  unit_test_presence : Bool
  lines_added : ℚ

/-- `len(s.get("cross_file_call_edges", [])) if isinstance(..., list) else 0`. -/
def crossCallsOf : Val → Nat
  | .list xs => xs.length
  | _ => 0

/-- `CodeSmellDetector.detect_smells_from_summary`: the thirteen threshold
rules, in source order, each appending one finding when its condition
holds. -/
def detectSmells (s : SummaryView) : List Finding :=
  let loc := s.lines_of_code
  let hasFunctions := s.functions > 0
  let hasClasses := s.classes > 0
  let crossCalls := crossCallsOf s.cross_file_call_edges
  (if hasFunctions ∧ (s.max_lines_per_function > 50 ∨ s.max_cyclomatic_ratio > 1/2 ∨
      s.max_nesting_level > 4)
   then [⟨"LongMethod", "MAJOR"⟩] else []) ++
  (if hasFunctions ∧ (s.large_parameter_list_indicator = true ∨ s.mean_param_entropy > 2)
   then [⟨"LargeParameterList", "MINOR"⟩] else []) ++
  (if hasClasses ∧ (s.average_methods_per_class < 2 ∧ s.mean_lines_per_class < 50)
   then [⟨"LazyClass", "MINOR"⟩] else []) ++
  (if hasClasses ∧ (s.inter_file_coupling > 20 ∨ crossCalls > 15 ∨
      s.average_cyclomatic_complexity > 15)
   then [⟨"GodClass", "CRITICAL"⟩] else []) ++
  (if hasFunctions ∧ (s.average_cyclomatic_complexity > 10 ∨ s.nesting_variance > 3/2)
   then [⟨"SpaghettiCode", "MAJOR"⟩] else []) ++
  (if loc > 20 ∧ (s.documentation_coverage < 20 ∨ s.comment_percentage < 5)
   then [⟨"PoorDocumentation", "MINOR"⟩] else []) ++
  (if s.comment_code_mismatch_score > 7/10
   then [⟨"MisleadingComments", "MINOR"⟩] else []) ++
  (if s.globals_declared > 3 ∨ s.global_usages_total > 10
   then [⟨"GlobalStateAbuse", "MAJOR"⟩] else []) ++
  (if hasFunctions ∧ (s.external_vs_internal_field_access_ratio > 3 ∨ crossCalls > 10)
   then [⟨"FeatureEnvy", "MINOR"⟩] else []) ++
  (if s.commit_bursts > 3 ∧ s.inter_file_coupling > 10
   then [⟨"ShotgunSurgery", "MAJOR"⟩] else []) ++
  (if s.pep8_violations > 5 ∨ s.irregularity_score > 1
   then [⟨"FormattingIssues", "INFO"⟩] else []) ++
  (if loc > 50 ∧ s.unit_test_presence = false
   then [⟨"UntestedCode", "MAJOR"⟩] else []) ++
  (if s.commit_bursts > 5 ∨ s.lines_added > 500
   then [⟨"UnstableModule", "MINOR"⟩] else [])

/-- The module-level `SMELL_INDEX` table of `smell_detector.py`. -/
def SMELL_INDEX : List (String × Nat) :=
  [("LongMethod", 0), ("LargeParameterList", 1), ("GodClass", 2), ("LazyClass", 3),
   ("SpaghettiCode", 4), ("PoorDocumentation", 5), ("MisleadingComments", 6),
   ("GlobalStateAbuse", 7), ("FeatureEnvy", 8), ("ShotgunSurgery", 9),
   ("UntestedCode", 10), ("FormattingIssues", 11), ("UnstableModule", 12)]

/-- `self.num_labels = len(smell_index)`. -/
def numLabels : Nat := SMELL_INDEX.length

/-- `CodeSmellDetector.smells_to_binary`: scatter-write a 1 at the index of
each finding whose type is in the smell index, starting from the all-zero
vector of length `num_labels`. -/
def smellsToBinary (smells : List Finding) : List Nat :=
  smells.foldl
    (fun y f =>
      match SMELL_INDEX.lookup f.type with
      | some i => y.set i 1
      | none => y)
    (List.replicate numLabels 0)

/-- The scatter-write fold never changes the vector length. -/
theorem smellsToBinary_foldl_length (smells : List Finding) :
    ∀ y : List Nat,
      (smells.foldl
        (fun y f =>
          match SMELL_INDEX.lookup f.type with
          | some i => y.set i 1
          | none => y) y).length = y.length := by
  induction smells with
  | nil => intro y; rfl
  | cons f fs ih =>
    intro y
    rw [List.foldl_cons, ih]
    cases SMELL_INDEX.lookup f.type <;> simp

/-- Claim C10: the smell enumeration has 13 types with ShotgunSurgery at
index 9, every binary label vector has length 13, and every summary with
commit bursts over 3 and inter-file coupling over 10 receives a
ShotgunSurgery finding. -/
theorem c10_theorem :
    SMELL_INDEX.lookup "ShotgunSurgery" = some 9 ∧
    SMELL_INDEX.length = 13 ∧
    (∀ smells : List Finding, (smellsToBinary smells).length = 13) ∧
    (∀ s : SummaryView, s.commit_bursts > 3 → s.inter_file_coupling > 10 →
      Finding.mk "ShotgunSurgery" "MAJOR" ∈ detectSmells s) := by
  refine ⟨by decide, by decide, ?_, ?_⟩
  · intro smells
    unfold smellsToBinary
    rw [smellsToBinary_foldl_length]
    decide
  · intro s h1 h2
    have hcond : s.commit_bursts > 3 ∧ s.inter_file_coupling > 10 := ⟨h1, h2⟩
    simp only [detectSmells, List.mem_append]
    rw [if_pos hcond]
    simp

/-- A summary with commit bursts 4 and inter-file coupling 11, everything
else inert. -/
def c10Ex : SummaryView :=
  { lines_of_code := 0, functions := 0, classes := 0, max_lines_per_function := 0,
    max_cyclomatic_ratio := 0, max_nesting_level := 0,
    large_parameter_list_indicator := false, mean_param_entropy := 0,
    average_methods_per_class := 0, mean_lines_per_class := 0,
    cross_file_call_edges := .list [], inter_file_coupling := 11,
    average_cyclomatic_complexity := 0, nesting_variance := 0,
    documentation_coverage := 100, comment_percentage := 100,
    comment_code_mismatch_score := 0, globals_declared := 0,
    global_usages_total := 0, external_vs_internal_field_access_ratio := 0,
    commit_bursts := 4, pep8_violations := 0, irregularity_score := 0,
    unit_test_presence := true, lines_added := 0 }

/-- Claim C10, witness: the ShotgunSurgery conjunct applied at the concrete
summary with commit bursts 4 and coupling 11. -/
theorem c10_witness : Finding.mk "ShotgunSurgery" "MAJOR" ∈ detectSmells c10Ex :=
  c10_theorem.2.2.2 c10Ex (by norm_num [c10Ex]) (by norm_num [c10Ex])

/-- A summary whose metrics sit exactly at (not over) rule thresholds of the
classifier: max function lines 50, cyclomatic ratio 0.5, nesting 4, entropy
2.0, methods/class 2, class lines 50, mismatch 0.7, globals 3, usages 10,
access ratio 3, pep8 5, irregularity 1.0, commit bursts 5 and added lines
500 (the thresholds the claim names), and — for the metrics that appear in
two rules with different thresholds — inter-file coupling at GodClass's 20,
cross-file edges at GodClass's 15 and average cyclomatic complexity at
GodClass's 15. -/
def c5Boundary : SummaryView :=
  { lines_of_code := 50, functions := 1, classes := 1, max_lines_per_function := 50,
    max_cyclomatic_ratio := 1/2, max_nesting_level := 4,
    large_parameter_list_indicator := false, mean_param_entropy := 2,
    average_methods_per_class := 2, mean_lines_per_class := 50,
    cross_file_call_edges := .list (List.replicate 15 .null),
    inter_file_coupling := 20, average_cyclomatic_complexity := 15,
    nesting_variance := 3/2, documentation_coverage := 20, comment_percentage := 5,
    comment_code_mismatch_score := 7/10, globals_declared := 3,
    global_usages_total := 10, external_vs_internal_field_access_ratio := 3,
    commit_bursts := 5, pep8_violations := 5, irregularity_score := 1,
    unit_test_presence := false, lines_added := 500 }

/-- Claim C5, counterexample: several metrics are tested by two rules with
different thresholds (average cyclomatic complexity by SpaghettiCode at 10
and GodClass at 15; inter-file coupling by ShotgunSurgery at 10 and GodClass
at 20; cross-file edges by FeatureEnvy at 10 and GodClass at 15; commit
bursts by ShotgunSurgery at 3 and UnstableModule at 5).  A summary sitting
exactly at rule thresholds — with commit bursts exactly 5 and added lines
exactly 500 as the claim itself specifies — is strictly over the smaller
thresholds of those rules, so the classifier does NOT produce zero findings:
SpaghettiCode, FeatureEnvy and ShotgunSurgery fire. -/
theorem c5_counterexample :
    (detectSmells c5Boundary).map Finding.type
      = ["SpaghettiCode", "FeatureEnvy", "ShotgunSurgery"] ∧
    detectSmells c5Boundary ≠ [] := by
  have h : detectSmells c5Boundary
      = [⟨"SpaghettiCode", "MAJOR"⟩, ⟨"FeatureEnvy", "MINOR"⟩, ⟨"ShotgunSurgery", "MAJOR"⟩] := by
    norm_num [detectSmells, c5Boundary, crossCallsOf]
  exact ⟨by rw [h]; rfl, by rw [h]; simp⟩

/-- Claim C5, amended: feeding the classifier a NumericalSummary whose
metrics sit exactly at (not over) each rule threshold produces zero findings
provided each metric tested by two rules sits at the SMALLER of its two
thresholds (coupling 10, cross-file edges 10, average cyclomatic complexity
10, lines of code 50) — with commit bursts exactly 5, as the claim
specifies, which is harmless only because ShotgunSurgery also requires
coupling over 10.  At the larger thresholds the lower-threshold rules fire
(see the counterexample). -/
theorem c5_amended (s : SummaryView)
    (h1 : s.max_lines_per_function = 50) (h2 : s.max_cyclomatic_ratio = 1/2)
    (h3 : s.max_nesting_level = 4) (h4 : s.large_parameter_list_indicator = false)
    (h5 : s.mean_param_entropy = 2) (h6 : s.average_methods_per_class = 2)
    (h7 : s.mean_lines_per_class = 50) (h8 : crossCallsOf s.cross_file_call_edges = 10)
    (h9 : s.inter_file_coupling = 10) (h10 : s.average_cyclomatic_complexity = 10)
    (h11 : s.nesting_variance = 3/2) (h12 : s.documentation_coverage = 20)
    (h13 : s.comment_percentage = 5) (h14 : s.comment_code_mismatch_score = 7/10)
    (h15 : s.globals_declared = 3) (h16 : s.global_usages_total = 10)
    (h17 : s.external_vs_internal_field_access_ratio = 3) (h18 : s.commit_bursts = 5)
    (h19 : s.pep8_violations = 5) (h20 : s.irregularity_score = 1)
    (h21 : s.lines_added = 500) (h22 : s.lines_of_code = 50) :
    detectSmells s = [] := by
  norm_num [detectSmells, h1, h2, h3, h4, h5, h6, h7, h8, h9, h10, h11, h12, h13,
    h14, h15, h16, h17, h18, h19, h20, h21, h22]

/-- The all-boundary summary with the shared-threshold metrics at the
smaller of their thresholds. -/
def c5MinBoundary : SummaryView :=
  { c5Boundary with
    cross_file_call_edges := .list (List.replicate 10 .null),
    inter_file_coupling := 10, average_cyclomatic_complexity := 10 }

/-- Claim C5, amended, witness: zero findings at the concrete all-boundary
summary with shared-threshold metrics at their smaller thresholds. -/
theorem c5_amended_witness : detectSmells c5MinBoundary = [] :=
  c5_amended c5MinBoundary rfl rfl rfl rfl rfl rfl rfl (by decide) rfl rfl rfl rfl rfl
    rfl rfl rfl rfl rfl rfl rfl rfl rfl

/-! ## Numeric helpers

Python's `round(x, n)` (round-half-to-even) and `statistics.mean`, modelled
exactly over `ℚ`. -/

/-- Python's `round` to an integer: round half to even. -/
def bankersRound (q : ℚ) : ℤ :=
  let f := ⌊q⌋
  if q - f < 1/2 then f
  else if q - f > 1/2 then f + 1
  else if f % 2 = 0 then f else f + 1

/-- Python's `round(x, d)`. -/
def roundTo (d : Nat) (q : ℚ) : ℚ :=
  (bankersRound (q * (10 : ℚ) ^ d) : ℚ) / (10 : ℚ) ^ d

/-- `statistics.mean` (call sites guard against the empty list). -/
def meanQ (l : List ℚ) : ℚ := l.sum / (l.length : ℚ)

/-! ## Structure and complexity metrics
(`_get_structure_metrics`, `_get_complexity_metrics`) -/

/-- `isinstance(node, ast.FunctionDef)` (the non-async class). -/
def isFunctionDefSync : Ast → Bool
  | .functionDef _ _ _ y _ _ => !y
  | _ => false

/-- `isinstance(node, ast.AsyncFunctionDef)`. -/
def isAsyncFunctionDefB : Ast → Bool
  | .functionDef _ _ _ y _ _ => y
  | _ => false

/-- `isinstance(node, (ast.FunctionDef, ast.AsyncFunctionDef))`. -/
def isFunctionDefAny : Ast → Bool
  | .functionDef _ _ _ _ _ _ => true
  | _ => false

/-- The `control_types` tuple of `_get_complexity_metrics`:
`(ast.If, ast.For, ast.While, ast.Try, ast.With, ast.IfExp)`. -/
def isControlNode : Ast → Bool
  | .ifStmt _ _ _    => true
  | .forStmt _ _ _   => true
  | .whileStmt _ _ _ => true
  | .tryStmt _ _ _ _ => true
  | .withStmt _ _    => true
  | .ifExp _ _ _     => true
  | _                => false

/-- `_get_structure_metrics`. -/
structure StructureMetrics where
  classes : Nat
  functions : Nat
  asyncFunctions : Nat
  totalElements : Nat

/-- `_get_structure_metrics`: count classes, functions and async functions
over the whole tree walk. -/
def structureMetricsOf (tree : Ast) : StructureMetrics :=
  let w := tree.subnodes
  let c := w.countP isClassDefB
  let f := w.countP isFunctionDefSync
  let a := w.countP isAsyncFunctionDefB
  { classes := c, functions := f, asyncFunctions := a, totalElements := c + f + a }

mutual

/-- The recursive `visit` of `_get_complexity_metrics`, restricted to the
maximum-nesting computation: control nodes deepen the nesting and record
their depth; the child depth resets to 0 on entering a function or class
body (the tree root is a `module`, which passes the depth through). -/
def visitMax : Ast → Nat → Nat
  | .module b, d            => visitMaxList b d
  | .classDef _ bs b, _     => max (visitMaxList bs 0) (visitMaxList b 0)
  | .functionDef _ _ b _ _ _, _ => visitMaxList b 0
  | .ifStmt t b o, d        =>
      max (d + 1) (max (visitMax t (d + 1)) (max (visitMaxList b (d + 1)) (visitMaxList o (d + 1))))
  | .forStmt i b o, d       =>
      max (d + 1) (max (visitMax i (d + 1)) (max (visitMaxList b (d + 1)) (visitMaxList o (d + 1))))
  | .whileStmt t b o, d     =>
      max (d + 1) (max (visitMax t (d + 1)) (max (visitMaxList b (d + 1)) (visitMaxList o (d + 1))))
  | .tryStmt b h o f, d     =>
      max (d + 1) (max (visitMaxList b (d + 1)) (max (visitMaxList h (d + 1))
        (max (visitMaxList o (d + 1)) (visitMaxList f (d + 1)))))
  | .exceptHandler b, d     => visitMaxList b d
  | .withStmt i b, d        => max (d + 1) (max (visitMaxList i (d + 1)) (visitMaxList b (d + 1)))
  | .ifExp t x y, d         =>
      max (d + 1) (max (visitMax t (d + 1)) (max (visitMax x (d + 1)) (visitMax y (d + 1))))
  | .boolOp vs, d           => visitMaxList vs d
  | .compClause i, d        => visitMax i d
  | .call f a, d            => max (visitMax f d) (visitMaxList a d)
  | .name _, _              => 0
  | .attribute v _, d       => visitMax v d
  | .assign ts v, d         => max (visitMaxList ts d) (visitMax v d)
  | .annAssign t, d         => visitMax t d
  | .augAssign t, d         => visitMax t d
  | .globalStmt _, _        => 0
  | .exprStmt v, d          => visitMax v d
  | .constant _, _          => 0
  | .passStmt, _            => 0

/-- `visitMax` over children (`ast.iter_child_nodes`). -/
def visitMaxList : List Ast → Nat → Nat
  | [], _ => 0
  | a :: as, d => max (visitMax a d) (visitMaxList as d)

end

mutual

/-- The per-function `visit_f` of `_get_complexity_metrics`: same
depth-tracked maximum over control nodes, but with NO reset at nested
function/class boundaries. -/
def visitMaxNoReset : Ast → Nat → Nat
  | .module b, d            => visitMaxNoResetList b d
  | .classDef _ bs b, d     => max (visitMaxNoResetList bs d) (visitMaxNoResetList b d)
  | .functionDef _ _ b _ _ _, d => visitMaxNoResetList b d
  | .ifStmt t b o, d        =>
      max (d + 1) (max (visitMaxNoReset t (d + 1))
        (max (visitMaxNoResetList b (d + 1)) (visitMaxNoResetList o (d + 1))))
  | .forStmt i b o, d       =>
      max (d + 1) (max (visitMaxNoReset i (d + 1))
        (max (visitMaxNoResetList b (d + 1)) (visitMaxNoResetList o (d + 1))))
  | .whileStmt t b o, d     =>
      max (d + 1) (max (visitMaxNoReset t (d + 1))
        (max (visitMaxNoResetList b (d + 1)) (visitMaxNoResetList o (d + 1))))
  | .tryStmt b h o f, d     =>
      max (d + 1) (max (visitMaxNoResetList b (d + 1)) (max (visitMaxNoResetList h (d + 1))
        (max (visitMaxNoResetList o (d + 1)) (visitMaxNoResetList f (d + 1)))))
  | .exceptHandler b, d     => visitMaxNoResetList b d
  | .withStmt i b, d        =>
      max (d + 1) (max (visitMaxNoResetList i (d + 1)) (visitMaxNoResetList b (d + 1)))
  | .ifExp t x y, d         =>
      max (d + 1) (max (visitMaxNoReset t (d + 1))
        (max (visitMaxNoReset x (d + 1)) (visitMaxNoReset y (d + 1))))
  | .boolOp vs, d           => visitMaxNoResetList vs d
  | .compClause i, d        => visitMaxNoReset i d
  | .call f a, d            => max (visitMaxNoReset f d) (visitMaxNoResetList a d)
  | .name _, _              => 0
  | .attribute v _, d       => visitMaxNoReset v d
  | .assign ts v, d         => max (visitMaxNoResetList ts d) (visitMaxNoReset v d)
  | .annAssign t, d         => visitMaxNoReset t d
  | .augAssign t, d         => visitMaxNoReset t d
  | .globalStmt _, _        => 0
  | .exprStmt v, d          => visitMaxNoReset v d
  | .constant _, _          => 0
  | .passStmt, _            => 0

/-- `visitMaxNoReset` over children. -/
def visitMaxNoResetList : List Ast → Nat → Nat
  | [], _ => 0
  | a :: as, d => max (visitMaxNoReset a d) (visitMaxNoResetList as d)

end

/-- `per_function_nesting`: `visit_f(node, 0)` for each function in the
walk. -/
def perFunctionNestingOf (tree : Ast) : List Nat :=
  (tree.subnodes.filter isFunctionDefAny).map (fun f => visitMaxNoReset f 0)

/-- The `_get_complexity_metrics` record.  `nesting_variance` is the
population standard deviation of the per-function nesting depths — a square
root, in general irrational — so its (rounded) value is an input, supplied
at each use together with its justification. -/
structure ComplexityMetrics where
  maxNestingLevel : Nat
  totalControlStructures : Nat
  estimatedCyclomatic : Nat
  averageCyclomaticPerFunction : ℚ
  perFunctionNesting : List Nat
  nestingMean : ℚ
  nestingVariance : ℚ

/-- `_get_complexity_metrics`, with the population standard deviation of the
per-function nesting passed in as `pstdevNesting` (pre-rounding). -/
def complexityMetricsOf (tree : Ast) (pstdevNesting : ℚ) : ComplexityMetrics :=
  let total := tree.subnodes.countP isControlNode
  let est := total + 1
  let fns := (structureMetricsOf tree).functions
  let pfn := perFunctionNestingOf tree
  { maxNestingLevel := visitMax tree 0,
    totalControlStructures := total,
    estimatedCyclomatic := est,
    averageCyclomaticPerFunction := (est : ℚ) / (max 1 fns : ℚ),
    perFunctionNesting := pfn,
    nestingMean := if pfn.isEmpty then 0 else roundTo 3 (meanQ (pfn.map (fun n => (n : ℚ)))),
    nestingVariance := if pfn.isEmpty then 0 else roundTo 3 pstdevNesting }

/-- Population variance of a list of naturals (used to certify supplied
standard-deviation inputs: pstdev l = 0 iff popVariance l = 0). -/
def popVariance (l : List Nat) : ℚ :=
  if l.isEmpty then 0
  else meanQ (l.map (fun n : Nat => ((n : ℚ) - meanQ (l.map (fun j : Nat => (j : ℚ)))) ^ 2))

/-! ## Docstrings, calls, function metrics
(`_get_documentation_metrics`, `_collect_calls`, `_get_function_metrics`) -/

/-- Deterministic model of a Python `set` of strings: insert if absent,
keeping first-seen order.  (Python set iteration order is unspecified; every
downstream use is order-insensitive or explicitly sorted.) -/
def pyInsert (l : List String) (x : String) : List String :=
  if x ∈ l then l else l ++ [x]

/-- First-occurrence deduplication, as Python dict keys. -/
def pyDedup : List String → List String
  | [] => []
  | a :: as => a :: (pyDedup as).filter (fun x => x ≠ a)

/-- Insertion step for Python's `sorted` over strings. -/
def insertStr (x : String) : List String → List String
  | [] => [x]
  | y :: ys => if x ≤ y then x :: y :: ys else y :: insertStr x ys

/-- Python's `sorted` over strings (insertion sort; Python's sort is stable,
which is irrelevant for distinct strings from a set). -/
def sortStr : List String → List String
  | [] => []
  | x :: xs => insertStr x (sortStr xs)

/-- `ast.get_docstring(node) is not None`: the body's first statement is an
expression statement holding a string constant. -/
def hasDocstringB (body : List Ast) : Bool :=
  match body with
  | .exprStmt (.constant true) :: _ => true
  | _ => false

/-- The `_get_documentation_metrics` record. -/
structure DocMetrics where
  functionsWithDocstrings : Nat
  classesWithDocstrings : Nat
  totalDocumentedElements : Nat
  documentationCoverage : ℚ

/-- `_get_documentation_metrics`. -/
def docMetricsOf (tree : Ast) : DocMetrics :=
  let w := tree.subnodes
  let fd := w.countP (fun n => match n with
    | .functionDef _ _ b _ _ _ => hasDocstringB b
    | _ => false)
  let cd := w.countP (fun n => match n with
    | .classDef _ _ b => hasDocstringB b
    | _ => false)
  let tf := w.countP isFunctionDefAny
  let tc := w.countP isClassDefB
  { functionsWithDocstrings := fd, classesWithDocstrings := cd,
    totalDocumentedElements := fd + cd,
    documentationCoverage := ((fd + cd : Nat) : ℚ) / ((max 1 (tf + tc) : Nat) : ℚ) }

/-- The reversed attribute chain of a call target: attributes from the
innermost out, prefixed by the root name when the chain bottoms out in a
`Name` (`_collect_calls`' while-loop plus the final `isinstance` check). -/
def attrRevChain : Ast → List String
  | .attribute v a => attrRevChain v ++ [a]
  | .name id => [id]
  | _ => []

/-- The name `_collect_calls` records for a `Call`'s function expression:
a plain `Name` records its id, an `Attribute` records the dotted chain,
anything else records nothing. -/
def callName : Ast → Option String
  | .name id => some id
  | .attribute v a => some (String.intercalate "." (attrRevChain (.attribute v a)))
  | _ => none

/-- `_collect_calls(node)`: the set of called function/method names in the
subtree. -/
def collectCalls (node : Ast) : List String :=
  node.subnodes.foldl
    (fun acc n =>
      match n with
      | .call f _ => match callName f with
        | some c => pyInsert acc c
        | none => acc
      | _ => acc)
    []

/-- The per-function record of `_get_function_metrics` (fields unused by the
numerical summary — decorators, async/method flags, call lists, ratios — are
omitted; the summary reads only the fields below). -/
structure FuncInfo where
  name : String
  argsCount : Nat
  cyclomaticComplexity : Nat
  loc : Nat
  internalAttrAccess : Nat
  externalAttrAccess : Nat

/-- The record `_get_function_metrics` builds for one function node
(`func_loc = end_lineno - lineno + 1`; attribute accesses on the receiver
`self` count as internal, any other `Name`-rooted attribute access as
external). -/
def funcInfoOf (n : Ast) : FuncInfo :=
  match n with
  | .functionDef nm args _ _ l e =>
    { name := nm,
      argsCount := args.length,
      cyclomaticComplexity := computeCyclomaticComplexity n,
      loc := e - l + 1,
      internalAttrAccess := n.subnodes.countP (fun m => match m with
        | .attribute (.name id) _ => id == "self"
        | _ => false),
      externalAttrAccess := n.subnodes.countP (fun m => match m with
        | .attribute (.name id) _ => id != "self"
        | _ => false) }
  | _ => { name := "", argsCount := 0, cyclomaticComplexity := 0, loc := 0,
           internalAttrAccess := 0, externalAttrAccess := 0 }

/-- `_get_function_metrics`: one record per function in the walk. -/
def functionMetricsOf (tree : Ast) : List FuncInfo :=
  (tree.subnodes.filter isFunctionDefAny).map funcInfoOf

/-! ## Object-oriented metrics (`_get_object_oriented_metrics`) -/

/-- Name of a function node. -/
def astFuncName : Ast → String
  | .functionDef nm _ _ _ _ _ => nm
  | _ => ""

/-- Last-wins association lookup (Python dict indexed by method name). -/
def lookupLast (m : List (String × List String)) (k : String) : List String :=
  (((m.reverse).find? (fun p => p.1 == k)).map (fun p => p.2)).getD []

/-- The `self.x` attribute-access set of one method
(`accessed.add(node.attr)`). -/
def selfAttrAccessSet (m : Ast) : List String :=
  m.subnodes.foldl
    (fun acc n =>
      match n with
      | .attribute (.name id) a => if id == "self" then pyInsert acc a else acc
      | _ => acc)
    []

/-- Instance fields: attributes assigned to `self` anywhere in the methods. -/
def instanceFieldsOf (methods : List Ast) : List String :=
  methods.foldl
    (fun acc m =>
      m.subnodes.foldl
        (fun acc n =>
          match n with
          | .assign ts _ =>
            ts.foldl
              (fun acc t =>
                match t with
                | .attribute (.name id) a => if id == "self" then pyInsert acc a else acc
                | _ => acc)
              acc
          | _ => acc)
        acc)
    []

/-- Class-level fields: plain-name `Assign`/`AnnAssign` targets in the class
body. -/
def classFieldsOf (body : List Ast) : List String :=
  body.foldl
    (fun acc item =>
      match item with
      | .assign ts _ =>
        ts.foldl
          (fun acc t =>
            match t with
            | .name id => pyInsert acc id
            | _ => acc)
          acc
      | .annAssign (.name id) => pyInsert acc id
      | _ => acc)
    []

/-- The `for i in range(m): for j in range(i+1, m)` pair enumeration. -/
def pairsOf {α : Type} : List α → List (α × α)
  | [] => []
  | x :: rest => rest.map (fun y => (x, y)) ++ pairsOf rest

/-- The last dotted segment of a call name (`c.split('.')[-1]`). -/
def lastSeg (c : String) : String := (c.splitOn ".").getLastD ""

/-- The first dotted segment of a call name (`c.split('.')[0]`). -/
def firstSeg (c : String) : String := (c.splitOn ".").headD ""

/-- The per-class record of `_get_object_oriented_metrics` (the
`method_field_access`/`method_calls` debug dumps are omitted; the summary
does not read them). -/
structure OOClassInfo where
  name : String
  methods : Nat
  publicMethods : Nat
  wmc : Nat
  lcom : ℚ
  rfc : Nat
  tna : Nat
  cbo : Nat
  dit : Nat

/-- The per-class computation of `_get_object_oriented_metrics`. -/
def ooClassInfoOf (classes : List Ast) (cnode : Ast) : OOClassInfo :=
  match cnode with
  | .classDef cname bases body =>
    let methods := body.filter isFunctionDefAny
    let mNames := methods.map astFuncName
    -- method-name-indexed dicts (a duplicated method name keeps the last entry)
    let mfa : List (String × List String) := methods.map (fun m => (astFuncName m, selfAttrAccessSet m))
    let mcalls : List (String × List String) := methods.map (fun m => (astFuncName m, collectCalls m))
    let totalFields := (instanceFieldsOf methods).foldl pyInsert (classFieldsOf body)
    let wmc := (methods.map computeCyclomaticComplexity).sum
    let m := methods.length
    let lcom : ℚ :=
      if m ≤ 1 then 0
      else
        let namePairs := pairsOf mNames
        let pairs := namePairs.length
        let shared := namePairs.countP
          (fun p => (lookupLast mfa p.1).any (fun x => x ∈ lookupLast mfa p.2))
        if pairs > 0 then ((pairs - shared : Nat) : ℚ) / (pairs : ℚ) else 0
    let called := (pyDedup mNames).foldl (fun acc nm => (lookupLast mcalls nm).foldl pyInsert acc) []
    let externalCalled := called.filter
      (fun c => !(c.contains '.' && decide (lastSeg c ∈ mNames)) && !(decide (c ∈ mNames)))
    let rfc := methods.length + externalCalled.length
    let npm := mNames.countP (fun nm => !(nm.startsWith "_"))
    let clsNames := classes.map astClassName
    let cboBases := bases.foldl
      (fun acc b =>
        match b with
        | .name id => if id ∈ clsNames ∧ id ≠ cname then pyInsert acc id else acc
        | _ => acc)
      []
    let cboSet := (pyDedup mNames).foldl
      (fun acc nm => (lookupLast mcalls nm).foldl
        (fun acc c =>
          let root := firstSeg c
          if root ∈ clsNames ∧ root ≠ cname then pyInsert acc root else acc)
        acc)
      cboBases
    { name := cname, methods := m, publicMethods := npm, wmc := wmc,
      lcom := roundTo 3 lcom, rfc := rfc, tna := totalFields.length,
      cbo := cboSet.length, dit := (inheritanceDepthTop classes cnode).getD 0 }
  | _ =>
    { name := "", methods := 0, publicMethods := 0, wmc := 0, lcom := 0, rfc := 0,
      tna := 0, cbo := 0, dit := 0 }

/-- `_get_object_oriented_metrics` returns either the minimal
no-classes dict or the full record. -/
inductive OOMetricsR : Type where
  | empty
  | full (classes : List OOClassInfo) (totalMethods : Nat)
         (averageMethodsPerClass : ℚ) (classesWithInheritance : Nat)
         (averageInheritanceDepth averageWmc averageCbo : ℚ) (maxWmc : Nat)

/-- `_get_object_oriented_metrics`. -/
def ooMetricsOf (tree : Ast) : OOMetricsR :=
  let classes := classMapOf tree
  if classes.isEmpty then .empty
  else
    let results := classes.map (ooClassInfoOf classes)
    let totalMethods := (results.map (fun r => r.methods)).sum
    .full results totalMethods
      ((totalMethods : ℚ) / (results.length : ℚ))
      (results.countP (fun r => r.dit > 0))
      (((results.map (fun r => r.dit)).sum : ℚ) / (results.length : ℚ))
      (((results.map (fun r => r.wmc)).sum : ℚ) / (results.length : ℚ))
      (((results.map (fun r => r.cbo)).sum : ℚ) / (results.length : ℚ))
      ((results.map (fun r => r.wmc)).foldl max 0)

/-- `oo_metrics.get("classes", [])`. -/
def ooClasses : OOMetricsR → List OOClassInfo
  | .empty => []
  | .full cs _ _ _ _ _ _ _ => cs

/-- `oo_metrics.get("total_methods", 0)`. -/
def ooTotalMethods : OOMetricsR → Nat
  | .empty => 0
  | .full _ tm _ _ _ _ _ _ => tm

/-- `oo_metrics.get("average_methods_per_class", 0)`. -/
def ooAvgMethodsPerClass : OOMetricsR → ℚ
  | .empty => 0
  | .full _ _ a _ _ _ _ _ => a

/-- `oo_metrics.get("classes_with_inheritance", 0)`. -/
def ooClassesWithInheritance : OOMetricsR → Nat
  | .empty => 0
  | .full _ _ _ ci _ _ _ _ => ci

/-! ## Call-graph construction (`_compute_call_graph_metrics`) -/

/-- The qualified function list: class methods as `Class.method` with their
enclosing class, and top-level functions, in `tree.body` order. -/
def topFuncs (tree : Ast) : List (String × Ast × Option String) :=
  (astBody tree).foldl
    (fun acc node =>
      match node with
      | .classDef cn _ items =>
        acc ++ items.foldl
          (fun acc2 it =>
            match it with
            | .functionDef fn _ _ _ _ _ => acc2 ++ [(cn ++ "." ++ fn, it, some cn)]
            | _ => acc2)
          []
      | .functionDef fn _ _ _ _ _ => acc ++ [(fn, node, none)]
      | _ => acc)
    []

/-- `class_of.get(qname)`: the enclosing class of a method entry. -/
def classOfQ (funcs : List (String × Ast × Option String)) (q : String) : Option String :=
  (((funcs.filter (fun p => p.2.2.isSome)).reverse).find? (fun p => p.1 == q)).bind
    (fun p => p.2.2)

/-- Resolution of one collected call name for one caller: returns the
resolved in-file target (if any) and the cross-module first segment (if the
call is dotted, not `self`-rooted, and unresolved), mirroring the
resolution block of `_compute_call_graph_metrics`. -/
def resolveCall (names : List String) (funcs : List (String × Ast × Option String))
    (qname c : String) : Option String × Option String :=
  if c.contains '.' then
    let parts := c.splitOn "."
    if parts.headD "" == "self" then
      match classOfQ funcs qname with
      | some cls =>
        let cand := cls ++ "." ++ parts.getLastD ""
        (if cand ∈ names then some cand else none, none)
      | none => (none, none)
    else
      let cand := parts.headD "" ++ "." ++ parts.getLastD ""
      if cand ∈ names then (some cand, none) else (none, some (parts.headD ""))
  else
    (if c ∈ names then some c else none, none)

/-- The `_compute_call_graph_metrics` record (the per-node `fan_in`/`fan_out`
dicts are kept only through their averages, which is all the summary
reads). -/
structure CallGraphMetrics where
  nodes : Nat
  edges : Nat
  density : ℚ
  maxIntraFileCallDepth : Nat
  depths : List Nat
  avgFanIn : ℚ
  avgFanOut : ℚ
  crossModuleCalls : List (String × List String)
  modulesCalled : List String

/-- `_compute_call_graph_metrics`. -/
def callGraphOf (tree : Ast) : CallGraphMetrics :=
  let funcs := topFuncs tree
  let names := pyDedup (funcs.map (fun p => p.1))
  let callsOf := fun q =>
    match ((funcs.reverse).find? (fun p => p.1 == q)).map (fun p => p.2.1) with
    | some node => collectCalls node
    | none => []
  let edges : List (String × List String) := names.map (fun q =>
    (q, (callsOf q).foldl
      (fun acc c =>
        match (resolveCall names funcs q c).1 with
        | some t => pyInsert acc t
        | none => acc)
      []))
  let crossList : List (String × List String) := names.map (fun q =>
    (q, (callsOf q).foldl
      (fun acc c =>
        match (resolveCall names funcs q c).2 with
        | some m => pyInsert acc m
        | none => acc)
      []))
  let crossModuleCalls := (crossList.map (fun p => (p.1, sortStr p.2))).filter
    (fun p => !p.2.isEmpty)
  let modulesCalled := sortStr (crossList.foldl (fun acc p => p.2.foldl pyInsert acc) [])
  let N := names.length
  let E := (edges.map (fun p => p.2.length)).sum
  let fanOutVals := edges.map (fun p => p.2.length)
  let fanInVals := names.map (fun n => (edges.map (fun p => if n ∈ p.2 then 1 else 0)).sum)
  let depths := ((allCallDepths names edges).map (fun r => r.1)).getD []
  { nodes := N,
    edges := E,
    density := if N > 1 then (E : ℚ) / ((N : ℚ) * ((N : ℚ) - 1)) else 0,
    maxIntraFileCallDepth := depths.foldl max 0,
    depths := depths,
    avgFanIn := if names.isEmpty then 0 else meanQ (fanInVals.map (fun n => (n : ℚ))),
    avgFanOut := if names.isEmpty then 0 else meanQ (fanOutVals.map (fun n => (n : ℚ))),
    crossModuleCalls := crossModuleCalls,
    modulesCalled := modulesCalled }

/-! ## Remaining per-file metrics
(`_attribute_mutation_outside_constructor`, `_boolean_expression_metrics`,
`_global_state_usage`, `_cyclomatic_ratio_and_param_entropy`,
`_style_metrics`, `_calculate_maintainability_score`) -/

/-- `_attribute_mutation_outside_constructor`: count `self.x` assignment
targets in class methods other than `__init__` (the summary reads only the
total). -/
def attrMutationsOf (tree : Ast) : Nat :=
  tree.subnodes.foldl
    (fun acc node =>
      match node with
      | .classDef _ _ body =>
        acc + body.foldl
          (fun a2 item =>
            match item with
            | .functionDef nm args b y l e =>
              if nm != "__init__" then
                a2 + (Ast.functionDef nm args b y l e).subnodes.foldl
                  (fun a3 n =>
                    match n with
                    | .assign ts _ => a3 + ts.countP (fun t =>
                        match t with
                        | .attribute (.name id) _ => id == "self"
                        | _ => false)
                    | .augAssign (.attribute (.name id) _) =>
                        a3 + (if id == "self" then 1 else 0)
                    | _ => a3)
                  0
              else a2
            | _ => a2)
          0
      | _ => acc)
    0

/-- `_boolean_expression_metrics`: average terms per boolean operation,
accumulated per function over the walk (the summary reads only this
average, rounded to 2 places). -/
def boolAvgTermsOf (tree : Ast) : ℚ :=
  let fns := tree.subnodes.filter isFunctionDefAny
  let ops := (fns.map (fun f => f.subnodes.countP (fun n =>
      match n with
      | .boolOp _ => true
      | _ => false))).sum
  let terms := (fns.map (fun f => f.subnodes.foldl
      (fun a n =>
        match n with
        | .boolOp vs => a + vs.length
        | _ => a)
      0)).sum
  if ops = 0 then 0 else roundTo 2 ((terms : ℚ) / (ops : ℚ))

/-- `module_assigns` of `_global_state_usage`: plain-name assignment targets
at module level. -/
def globalsDeclaredSet (tree : Ast) : List String :=
  (astBody tree).foldl
    (fun acc node =>
      match node with
      | .assign ts _ =>
        ts.foldl
          (fun a t =>
            match t with
            | .name id => pyInsert a id
            | _ => a)
          acc
      | .annAssign (.name id) => pyInsert acc id
      | _ => acc)
    []

/-- `usage_count` of `_global_state_usage`: `Name` occurrences of declared
module globals inside functions. -/
def globalUsagesOf (tree : Ast) : Nat :=
  let ms := globalsDeclaredSet tree
  (tree.subnodes.filter isFunctionDefAny).foldl
    (fun acc f =>
      acc + f.subnodes.countP (fun n =>
        match n with
        | .name id => decide (id ∈ ms)
        | _ => false))
    0

/-- The `_cyclomatic_ratio_and_param_entropy` record.  The parameter-name
entropy is a sum of real logarithms, so its value is an input, supplied at
each use together with its justification. -/
structure CcEntropyMetrics where
  maxCyclomaticRatio : ℚ
  meanCyclomaticRatio : ℚ
  meanParamEntropy : ℚ

/-- `_cyclomatic_ratio_and_param_entropy`: per-function `cc / max(1, loc)`
ratios (`loc = end_lineno - lineno + 1`), with the mean entropy passed in. -/
def ccRatioMetricsOf (tree : Ast) (meanParamEntropy : ℚ) : CcEntropyMetrics :=
  let fns := tree.subnodes.filter isFunctionDefAny
  let ratios := fns.map (fun f =>
    match f with
    | .functionDef _ _ _ _ l e =>
        (computeCyclomaticComplexity f : ℚ) / ((max 1 (e - l + 1) : Nat) : ℚ)
    | _ => 0)
  { maxCyclomaticRatio := if ratios.isEmpty then 0 else ratios.foldl max 0,
    meanCyclomaticRatio := if ratios.isEmpty then 0 else meanQ ratios,
    meanParamEntropy := meanParamEntropy }

/-- The `_style_metrics` record. -/
structure StyleMetrics where
  avgLineLength : ℚ
  maxLineLength : Nat
  percentLinesOver80 : ℚ

/-- `_style_metrics`. -/
def styleMetricsOf (lines : List String) : StyleMetrics :=
  if lines.isEmpty then { avgLineLength := 0, maxLineLength := 0, percentLinesOver80 := 0 }
  else
    let ls : List Nat := lines.map (fun l => l.length)
    { avgLineLength := roundTo 1 (meanQ (ls.map (fun n => (n : ℚ)))),
      maxLineLength := ls.foldl max 0,
      percentLinesOver80 :=
        roundTo 2 (((ls.countP (fun n => n > 80) : Nat) : ℚ) / ((ls.length : Nat) : ℚ) * 100) }

/-- `_calculate_maintainability_score` from the size, complexity and
documentation records. -/
def maintainabilityScore (size : SizeMetrics) (complexity : ComplexityMetrics)
    (docs : DocMetrics) : ℚ :=
  let s1 : ℤ := 100
  let s2 := if size.LOC > 200 then s1 - 20 else if size.LOC > 100 then s1 - 10 else s1
  let s3 := if complexity.estimatedCyclomatic > 20 then s2 - 20
            else if complexity.estimatedCyclomatic > 10 then s2 - 10 else s2
  let s4 := if docs.documentationCoverage > 4/5 then s3 + 10
            else if docs.documentationCoverage < 3/10 then s3 - 15 else s3
  max 0 (min 100 (roundTo 1 (s4 : ℚ)))

/-! ## Environmental components

The remaining summary inputs read the file system, run subprocesses, or
compute irrational reals (Halstead logarithms, entropy, standard
deviations, regex scans of the raw text); `_get_numerical_summary` merges
their already-computed result dicts, so they enter the embedding as records
with the fields the summary reads. -/

/-- `_abbrev_and_comment_mismatch` result (regex/text-derived). -/
structure AbbrevMetrics where
  abbrevDensity : ℚ
  abbrevExamples : List String
  commentCodeMismatchScore : ℚ
  todoFixmeCount : Nat

/-- `_halstead_metrics` result (logarithm-valued). -/
structure HalsteadMetrics where
  volume : ℚ
  effort : ℚ
  difficulty : ℚ
  estimatedBugs : ℚ

/-- `_test_metrics` result (file-system scan). -/
structure TestMetrics where
  testFilesFound : Nat
  testLines : Nat
  testFunctionCount : Nat
  unitTestPresence : Bool

/-- `_semantic_textual_metrics` result (regex scan; the summary reads only
`todo_density`). -/
structure SemanticMetrics where
  todoDensity : ℚ

/-- `_pep8_violations` result (subprocess or line heuristic; both branches
return this dict shape, so the summary's `isinstance(pep8, dict)` guard is
always satisfied). -/
structure Pep8R where
  count : Nat
  examples : List String
  usedTool : Bool

/-- `_indentation_irregularity` result; `indent_stddev` is present only in
the with-indents branch. -/
structure IndentR where
  irregularityScore : ℚ
  tabLines : Nat
  mixedTabs : Nat
  indentStddev : Option ℚ

/-- `_get_vcs_metrics` result: `{"repo_available": False}` when the file is
not under version control (or git fails), otherwise the full dict.  (The
no-commits branch is the `available` case with all-zero numbers and empty
tables.) -/
inductive VcsR : Type where
  | unavailable
  | available (nr linesAdded linesDeleted numAuthors fileAgeDays commitBursts : Nat)
              (coupledFileChanges : List (String × Nat))
              (topCoupledFiles : List (String × Nat))

/-- `vcs.get("repo_available", False)`. -/
def vcsRepoAvailable : VcsR → Bool
  | .unavailable => false
  | .available _ _ _ _ _ _ _ _ => true

/-- `vcs.get("lines_added")`. -/
def vcsLinesAdded : VcsR → Option Nat
  | .unavailable => none
  | .available _ a _ _ _ _ _ _ => some a

/-- `vcs.get("lines_deleted")`. -/
def vcsLinesDeleted : VcsR → Option Nat
  | .unavailable => none
  | .available _ _ d _ _ _ _ _ => some d

/-- `vcs.get("num_authors")`. -/
def vcsNumAuthors : VcsR → Option Nat
  | .unavailable => none
  | .available _ _ _ n _ _ _ _ => some n

/-- `vcs.get("file_age_days")`. -/
def vcsFileAgeDays : VcsR → Option Nat
  | .unavailable => none
  | .available _ _ _ _ f _ _ _ => some f

/-- `vcs.get("commit_bursts")`. -/
def vcsCommitBursts : VcsR → Option Nat
  | .unavailable => none
  | .available _ _ _ _ _ b _ _ => some b

/-- `vcs.get("coupled_file_changes")`. -/
def vcsCoupledFileChanges : VcsR → Option (List (String × Nat))
  | .unavailable => none
  | .available _ _ _ _ _ _ c _ => some c

/-- `vcs.get("top_coupled_files")`. -/
def vcsTopCoupledFiles : VcsR → Option (List (String × Nat))
  | .unavailable => none
  | .available _ _ _ _ _ _ _ t => some t

/-- Everything `_get_numerical_summary` consumes for one analyzed file: the
parsed tree and raw lines, the docstring ranges collected from the AST
positions, the two real-valued inputs (nesting standard deviation,
parameter entropy), the text/environment component records, and the import
count (`_get_import_analysis`; import statements are not part of the
embedded AST fragment and the summary reads only the total). -/
structure Components where
  filePath : String
  lines : List String
  docRanges : List (Nat × Nat)
  tree : Ast
  pstdevNesting : ℚ
  meanParamEntropy : ℚ
  totalImports : Nat
  abbrevM : AbbrevMetrics
  halstead : HalsteadMetrics
  tests : TestMetrics
  semantic : SemanticMetrics
  pep8 : Pep8R
  indent : IndentR
  vcs : VcsR

/-! ## The numerical summary (`_get_numerical_summary`) -/

/-- `_get_numerical_summary`: the flat summary dict, as an association list
in the order of the source dict literal (the duplicated
`todo_fixme_semantic_density` key appears twice, as in the literal; a
Python dict keeps one entry for it, with the same value). -/
def summaryPairsA (filePath : String) (size : SizeMetrics) (str : StructureMetrics)
    (complexity : ComplexityMetrics) (oo : OOMetricsR) (decisionDensity boolAvg : ℚ) :
    List (String × Val) :=
  [("file_path", .s filePath),
   ("lines_of_code", .num size.LOC),
   ("source_lines", .num size.SLOC),
   ("comment_lines", .num size.CLOC),
   ("comment_percentage", .num (roundTo 1 (size.commentDensity * 100))),
   ("classes", .num str.classes),
   ("functions", .num str.functions),
   ("methods", .num (ooTotalMethods oo)),
   ("average_cyclomatic_complexity", .num (roundTo 2 complexity.averageCyclomaticPerFunction)),
   ("max_nesting_level", .num complexity.maxNestingLevel),
   ("nesting_variance", .num complexity.nestingVariance),
   ("decision_density", .num (roundTo 4 decisionDensity)),
   ("boolean_expression_avg_terms", .num boolAvg)]

def summaryPairsB (cg : CallGraphMetrics) (interFileCoupling : Nat)
    (crossFileCallEdges : List Val) (attrMut : Nat) (extIntRatio : ℚ)
    (maxLinesPerFunction : Nat) (meanLinesPerFunction : ℚ) (maxLinesPerClass : Nat)
    (meanLinesPerClass : ℚ) (globalsDeclared globalUsages : Nat) :
    List (String × Val) :=
  [("max_intra_file_call_depth", .num cg.maxIntraFileCallDepth),
   ("call_graph_density", .num (roundTo 4 cg.density)),
   ("inter_file_coupling", .num interFileCoupling),
   ("cross_file_call_edges", .list crossFileCallEdges),
   ("attribute_mutations_outside_init", .num attrMut),
   ("external_vs_internal_field_access_ratio", .num extIntRatio),
   ("max_lines_per_function", .num maxLinesPerFunction),
   ("mean_lines_per_function", .num meanLinesPerFunction),
   ("max_lines_per_class", .num maxLinesPerClass),
   ("mean_lines_per_class", .num meanLinesPerClass),
   ("globals_declared", .num globalsDeclared),
   ("global_usages_total", .num globalUsages)]

def summaryPairsC (ccEnt : CcEntropyMetrics) (abbrevM : AbbrevMetrics)
    (todoDensity : ℚ) (halstead : HalsteadMetrics) (style : StyleMetrics) :
    List (String × Val) :=
  [("max_cyclomatic_ratio", .num (roundTo 3 ccEnt.maxCyclomaticRatio)),
   ("mean_cyclomatic_ratio", .num (roundTo 3 ccEnt.meanCyclomaticRatio)),
   ("mean_param_entropy", .num (roundTo 3 ccEnt.meanParamEntropy)),
   ("abbreviation_density", .num abbrevM.abbrevDensity),
   ("comment_code_mismatch_score", .num abbrevM.commentCodeMismatchScore),
   ("todo_fixme_count", .num abbrevM.todoFixmeCount),
   ("todo_fixme_semantic_density", .num todoDensity),
   ("halstead_volume", .num (roundTo 2 halstead.volume)),
   ("halstead_effort", .num (roundTo 2 halstead.effort)),
   ("halstead_difficulty", .num halstead.difficulty),
   ("halstead_estimated_bugs", .num halstead.estimatedBugs),
   ("avg_line_length", .num (roundTo 1 style.avgLineLength)),
   ("max_line_length", .num style.maxLineLength),
   ("percent_lines_over_80", .num (roundTo 3 style.percentLinesOver80))]

def summaryPairsD (pep8 : Pep8R) (indent : IndentR) (tests : TestMetrics)
    (size : SizeMetrics) (todoDensity : ℚ) : List (String × Val) :=
  [("pep8_violations", .num pep8.count),
   ("pep8_examples", .list (pep8.examples.map (fun x => Val.s x))),
   ("indentation_irregularity", .dict
     ([("irregularity_score", .num indent.irregularityScore),
       ("tab_lines", .num indent.tabLines),
       ("mixed_tabs", .num indent.mixedTabs)] ++
      (match indent.indentStddev with
       | some v => [("indent_stddev", Val.num v)]
       | none => []))),
   ("test_files_found", .num tests.testFilesFound),
   ("test_lines", .num tests.testLines),
   ("test_function_count", .num tests.testFunctionCount),
   ("unit_test_presence", .b tests.unitTestPresence),
   ("test_to_source_ratio",
     .num (roundTo 3 ((tests.testLines : ℚ) / ((max 1 size.SLOC : Nat) : ℚ)))),
   ("semantic_todo_density", .num todoDensity),
   ("todo_fixme_semantic_density", .num todoDensity)]

def summaryPairsE (vcs : VcsR) : List (String × Val) :=
  [("vcs_available", .b (vcsRepoAvailable vcs)),
   ("lines_added", match vcsLinesAdded vcs with
     | some n => .num n
     | none => .null),
   ("lines_deleted", match vcsLinesDeleted vcs with
     | some n => .num n
     | none => .null),
   ("num_authors", match vcsNumAuthors vcs with
     | some n => .num n
     | none => .null),
   ("file_age_days", match vcsFileAgeDays vcs with
     | some n => .num n
     | none => .null),
   ("commit_bursts", match vcsCommitBursts vcs with
     | some n => .num n
     | none => .null),
   ("coupled_file_changes", match vcsCoupledFileChanges vcs with
     | some l => .dict (l.map (fun p => (p.1, Val.num p.2)))
     | none => .null),
   ("vcs_top_coupled", match vcsTopCoupledFiles vcs with
     | some l => .list (l.map (fun p => Val.dict [("file", .s p.1), ("count", .num p.2)]))
     | none => .null)]

def summaryPairsF (oo : OOMetricsR) (lazyClassIndicator : Bool)
    (godClassProxies : List OOClassInfo) (longMethodIndicator largeParamIndicator : Bool)
    (docs : DocMetrics) (totalImports : Nat) (maintainability : ℚ) :
    List (String × Val) :=
  [("average_methods_per_class", .num (roundTo 2 (ooAvgMethodsPerClass oo))),
   ("classes_with_inheritance", .num (ooClassesWithInheritance oo)),
   ("lazy_class_indicator", .b lazyClassIndicator),
   ("god_class_proxies", .list (godClassProxies.map (fun k =>
     Val.dict [("name", .s k.name), ("methods", .num k.methods),
               ("wmc", .num k.wmc), ("tna", .num k.tna)]))),
   ("long_method_indicator", .b longMethodIndicator),
   ("large_parameter_list_indicator", .b largeParamIndicator),
   ("documentation_coverage", .num (roundTo 1 (docs.documentationCoverage * 100))),
   ("total_imports", .num totalImports),
   ("maintainability_score", .num maintainability)]

/-- `_get_numerical_summary`: the flat summary dict, as an association list
in the order of the source dict literal (split into the six chunk
functions above purely for elaboration; the concatenation below is the one
dict literal of the source, in source order; the duplicated
`todo_fixme_semantic_density` key appears twice, as in the literal; a
Python dict keeps one entry for it, with the same value). -/
def numericalSummaryPairs (c : Components) : List (String × Val) :=
  let size : SizeMetrics := sizeMetricsOf c.lines c.docRanges
  let str : StructureMetrics := structureMetricsOf c.tree
  let complexity : ComplexityMetrics := complexityMetricsOf c.tree c.pstdevNesting
  let oo : OOMetricsR := ooMetricsOf c.tree
  let docs : DocMetrics := docMetricsOf c.tree
  let cg : CallGraphMetrics := callGraphOf c.tree
  let ccEnt : CcEntropyMetrics := ccRatioMetricsOf c.tree c.meanParamEntropy
  let style : StyleMetrics := styleMetricsOf c.lines
  let funcs : List FuncInfo := functionMetricsOf c.tree
  let decisionDensity : ℚ := (complexity.totalControlStructures : ℚ) / ((max 1 size.SLOC : Nat) : ℚ)
  let totalExternal : Nat := (funcs.map (fun f => f.externalAttrAccess)).sum
  let totalInternal : Nat := (funcs.map (fun f => f.internalAttrAccess)).sum
  let extIntRatio : ℚ := roundTo 3 ((totalExternal : ℚ) / ((max 1 totalInternal : Nat) : ℚ))
  let longMethodIndicator : Bool := funcs.any (fun f => f.loc > 75 || f.cyclomaticComplexity > 15)
  let largeParamIndicator : Bool := funcs.any (fun f => f.argsCount > 6)
  let linesPerFunction : List Nat := (funcs.map (fun f => f.loc)).filter (fun n => n > 0)
  let maxLinesPerFunction : Nat := linesPerFunction.foldl max 0
  let meanLinesPerFunction : ℚ :=
    if linesPerFunction.isEmpty then 0
    else roundTo 2 (meanQ (linesPerFunction.map (fun n => (n : ℚ))))
  -- the oo class records carry no "lazy_ratio" or "line_count" keys, so the
  -- lookups with default 0 make the indicator always false and the
  -- per-class lines lists always empty
  let lazyClassIndicator : Bool := (ooClasses oo).any (fun _ => decide ((0 : ℚ) > 3))
  let godClassProxies : List OOClassInfo := (ooClasses oo).filter
    (fun k => (k.methods > 20 && k.wmc > 50) || (k.tna > 30 && k.methods > 15))
  let linesPerClass : List Nat := ((ooClasses oo).map (fun _ => (0 : Nat))).filter (fun n => n > 0)
  let maxLinesPerClass : Nat := linesPerClass.foldl max 0
  let meanLinesPerClass : ℚ :=
    if linesPerClass.isEmpty then 0
    else roundTo 2 (meanQ (linesPerClass.map (fun n => (n : ℚ))))
  let interFileCoupling : Nat := cg.modulesCalled.length
  let crossFileCallEdges : List Val := cg.crossModuleCalls.foldl
    (fun acc p => acc ++ p.2.map (fun m => Val.dict [("caller", .s p.1), ("module", .s m)]))
    []
  summaryPairsA c.filePath size str complexity oo decisionDensity (boolAvgTermsOf c.tree) ++
  summaryPairsB cg interFileCoupling crossFileCallEdges (attrMutationsOf c.tree) extIntRatio
    maxLinesPerFunction meanLinesPerFunction maxLinesPerClass meanLinesPerClass
    (globalsDeclaredSet c.tree).length (globalUsagesOf c.tree) ++
  summaryPairsC ccEnt c.abbrevM c.semantic.todoDensity c.halstead style ++
  summaryPairsD c.pep8 c.indent c.tests size c.semantic.todoDensity ++
  summaryPairsE c.vcs ++
  summaryPairsF oo lazyClassIndicator godClassProxies longMethodIndicator largeParamIndicator
    docs c.totalImports (maintainabilityScore size complexity docs)

/-- Dict lookup on the summary pairs (first occurrence, as a Python dict
lookup for the keys built above). -/
def lookupVal (s : List (String × Val)) (k : String) : Option Val :=
  (s.find? (fun p => p.1 == k)).map (fun p => p.2)

/-- `s.get(k, d)`. -/
def getValD (s : List (String × Val)) (k : String) (d : Val) : Val :=
  (lookupVal s k).getD d

/-- A value usable in a numeric comparison; anything else raises `TypeError`
in Python (modelled as `none`). -/
def asNum : Val → Option ℚ
  | .num q => some q
  | _ => none

/-- Python truthiness of a summary value. -/
def truthy : Val → Bool
  | .num q => decide (q ≠ 0)
  | .b x => x
  | .s x => x ≠ ""
  | .null => false
  | .list xs => !xs.isEmpty
  | .dict xs => !xs.isEmpty

/-- Is the value under `k` (with a numeric default for a missing key)
usable in a numeric comparison?  A present non-numeric value — e.g. `None`
from an unavailable history backend — is not, and makes the Python
comparison raise `TypeError`. -/
def numOk (s : List (String × Val)) (k : String) : Bool :=
  match getValD s k (.num 0) with
  | .num _ => true
  | _ => false

/-- The numeric value under `k`, with default `d` for a missing key (used
under a `numOk` guard; the catch-all is unreachable there). -/
def numAtD (s : List (String × Val)) (k : String) (d : ℚ) : ℚ :=
  match getValD s k (.num d) with
  | .num q => q
  | _ => 0

/-- Guard for the
`s.get("indentation_irregularity", {}).get("irregularity_score", 0)` chain:
the outer value must be a dict (else `.get` raises `AttributeError`) and the
inner value numeric. -/
def irrOk (s : List (String × Val)) : Bool :=
  match getValD s "indentation_irregularity" (.dict []) with
  | .dict xs =>
    match (((xs.find? (fun p => p.1 == "irregularity_score")).map (fun p => p.2)).getD
        (.num 0)) with
    | .num _ => true
    | _ => false
  | _ => false

/-- The irregularity score read through the dict chain (used under the
`irrOk` guard). -/
def irrAtD (s : List (String × Val)) : ℚ :=
  match getValD s "indentation_irregularity" (.dict []) with
  | .dict xs =>
    match (((xs.find? (fun p => p.1 == "irregularity_score")).map (fun p => p.2)).getD
        (.num 0)) with
    | .num q => q
    | _ => 0
  | _ => 0

/-- Positional constructor for `SummaryView` (field order as declared). -/
def mkView (loc fns cls mlf mcr mnl : ℚ) (lpi : Bool) (mpe amc mlc : ℚ) (cfce : Val)
    (ifc acc nv dc cp ccm gd gu evi cb pv irr : ℚ) (utp : Bool) (la : ℚ) : SummaryView :=
  { lines_of_code := loc, functions := fns, classes := cls,
    max_lines_per_function := mlf, max_cyclomatic_ratio := mcr,
    max_nesting_level := mnl, large_parameter_list_indicator := lpi,
    mean_param_entropy := mpe, average_methods_per_class := amc,
    mean_lines_per_class := mlc, cross_file_call_edges := cfce,
    inter_file_coupling := ifc, average_cyclomatic_complexity := acc,
    nesting_variance := nv, documentation_coverage := dc,
    comment_percentage := cp, comment_code_mismatch_score := ccm,
    globals_declared := gd, global_usages_total := gu,
    external_vs_internal_field_access_ratio := evi, commit_bursts := cb,
    pep8_violations := pv, irregularity_score := irr,
    unit_test_presence := utp, lines_added := la }

/-- The keys `detect_smells_from_summary` compares numerically. -/
def detectorNumKeys : List String :=
  ["lines_of_code", "functions", "classes", "max_lines_per_function",
   "max_cyclomatic_ratio", "max_nesting_level", "mean_param_entropy",
   "average_methods_per_class", "mean_lines_per_class", "inter_file_coupling",
   "average_cyclomatic_complexity", "nesting_variance", "documentation_coverage",
   "comment_percentage", "comment_code_mismatch_score", "globals_declared",
   "global_usages_total", "external_vs_internal_field_access_ratio",
   "commit_bursts", "pep8_violations", "lines_added"]

/-- The typed view `detect_smells_from_summary` has of a summary dict: each
`s.get(key, default)` is extracted with its default; a key holding a value
that cannot enter its numeric comparison (e.g. `None` from an unavailable
history backend) makes the extraction fail (`none`), as the Python
comparison would raise `TypeError`. -/
def viewOfPairs (s : List (String × Val)) : Option SummaryView :=
  if (detectorNumKeys.all (fun k => numOk s k) && irrOk s) then
    some (mkView
      (numAtD s "lines_of_code" 0)
      (numAtD s "functions" 0)
      (numAtD s "classes" 0)
      (numAtD s "max_lines_per_function" 0)
      (numAtD s "max_cyclomatic_ratio" 0)
      (numAtD s "max_nesting_level" 0)
      (truthy (getValD s "large_parameter_list_indicator" (.b false)))
      (numAtD s "mean_param_entropy" 0)
      (numAtD s "average_methods_per_class" 0)
      (numAtD s "mean_lines_per_class" 0)
      (getValD s "cross_file_call_edges" (.list []))
      (numAtD s "inter_file_coupling" 0)
      (numAtD s "average_cyclomatic_complexity" 0)
      (numAtD s "nesting_variance" 0)
      (numAtD s "documentation_coverage" 100)
      (numAtD s "comment_percentage" 100)
      (numAtD s "comment_code_mismatch_score" 0)
      (numAtD s "globals_declared" 0)
      (numAtD s "global_usages_total" 0)
      (numAtD s "external_vs_internal_field_access_ratio" 0)
      (numAtD s "commit_bursts" 0)
      (numAtD s "pep8_violations" 0)
      (irrAtD s)
      (truthy (getValD s "unit_test_presence" (.b false)))
      (numAtD s "lines_added" 0))
  else none

/-- `detect_smells_from_summary` applied to a summary dict (`none` = the
Python call raises `TypeError` on a non-numeric value). -/
def detectFromSummary (s : List (String × Val)) : Option (List Finding) :=
  (viewOfPairs s).map detectSmells

/-- Claim C4: the NumericalSummary key sequence is the same for every
analyzed file — the dict literal of `_get_numerical_summary` declares every
key unconditionally, whatever the component inputs hold, so any two
analyzed files produce records with identical key sets (the keys may carry
default, zero or null values, but are always present). -/
theorem c4_theorem (c₁ c₂ : Components) :
    (numericalSummaryPairs c₁).map Prod.fst = (numericalSummaryPairs c₂).map Prod.fst := by
  rfl

/-- Claim C8: when the history backend reports unavailable
(`_get_vcs_metrics` returns `{"repo_available": False}`), the summary's
availability flag is `False` and every history-dependent field is null —
never the number zero. -/
theorem c8_theorem (c : Components) (h : c.vcs = VcsR.unavailable) :
    lookupVal (numericalSummaryPairs c) "vcs_available" = some (.b false) ∧
    lookupVal (numericalSummaryPairs c) "lines_added" = some .null ∧
    lookupVal (numericalSummaryPairs c) "lines_deleted" = some .null ∧
    lookupVal (numericalSummaryPairs c) "num_authors" = some .null ∧
    lookupVal (numericalSummaryPairs c) "file_age_days" = some .null ∧
    lookupVal (numericalSummaryPairs c) "commit_bursts" = some .null ∧
    lookupVal (numericalSummaryPairs c) "coupled_file_changes" = some .null := by
  cases c with
  | mk filePath lines docRanges tree pstdev entropy imports abbrevM halstead tests semantic pep8 indent vcs =>
    cases h
    exact ⟨rfl, rfl, rfl, rfl, rfl, rfl, rfl⟩

/-- A concrete empty-module file whose history backend is unavailable. -/
def c8Ex : Components :=
  { filePath := "sample.py", lines := [], docRanges := [], tree := .module [],
    pstdevNesting := 0, meanParamEntropy := 0, totalImports := 0,
    abbrevM := { abbrevDensity := 0, abbrevExamples := [],
                 commentCodeMismatchScore := 0, todoFixmeCount := 0 },
    halstead := { volume := 0, effort := 0, difficulty := 0, estimatedBugs := 0 },
    tests := { testFilesFound := 0, testLines := 0, testFunctionCount := 0,
               unitTestPresence := false },
    semantic := { todoDensity := 0 },
    pep8 := { count := 0, examples := [], usedTool := false },
    indent := { irregularityScore := 0, tabLines := 0, mixedTabs := 0,
                indentStddev := none },
    vcs := .unavailable }

/-- Claim C8, witness: the theorem applied to the concrete no-history file. -/
theorem c8_witness :
    lookupVal (numericalSummaryPairs c8Ex) "vcs_available" = some (.b false) ∧
    lookupVal (numericalSummaryPairs c8Ex) "lines_added" = some .null ∧
    lookupVal (numericalSummaryPairs c8Ex) "lines_deleted" = some .null ∧
    lookupVal (numericalSummaryPairs c8Ex) "num_authors" = some .null ∧
    lookupVal (numericalSummaryPairs c8Ex) "file_age_days" = some .null ∧
    lookupVal (numericalSummaryPairs c8Ex) "commit_bursts" = some .null ∧
    lookupVal (numericalSummaryPairs c8Ex) "coupled_file_changes" = some .null :=
  c8_theorem c8Ex rfl

/-! ## Claim C1: a 25-method, WMC-60, 0-attribute class and the GodClass rule -/

/-- No rule other than the GodClass rule emits a `GodClass` finding, and the
GodClass rule fires only on its own three thresholds: a summary with
inter-file coupling at most 20, cross-file call edges at most 15 and
average cyclomatic complexity at most 15 receives no GodClass finding,
whatever its other metrics (in particular, whatever any class's method
count or WMC). -/
theorem godclass_not_mem (s : SummaryView)
    (h1 : s.inter_file_coupling ≤ 20)
    (h2 : crossCallsOf s.cross_file_call_edges ≤ 15)
    (h3 : s.average_cyclomatic_complexity ≤ 15) :
    "GodClass" ∉ (detectSmells s).map Finding.type := by
  have hno : ∀ (c : Prop) (inst : Decidable c) (t sv : String), t ≠ "GodClass" →
      "GodClass" ∉ (List.map Finding.type (@ite _ c inst [Finding.mk t sv] [])) := by
    intro c inst t sv hne hm
    split at hm
    · simp at hm
      exact hne hm.symm
    · simp at hm
  intro hmem
  simp only [detectSmells, List.map_append, List.mem_append] at hmem
  rcases hmem with
    ((((((((((((h | h) | h) | h) | h) | h) | h) | h) | h) | h) | h) | h) | h)
  · exact hno _ _ _ _ (by decide) h
  · exact hno _ _ _ _ (by decide) h
  · exact hno _ _ _ _ (by decide) h
  · -- the GodClass rule itself: its condition contradicts h1-h3
    split at h
    case isTrue hc =>
      rcases hc.2 with hd | hd | hd
      · linarith
      · omega
      · linarith
    case isFalse => simp at h
  · exact hno _ _ _ _ (by decide) h
  · exact hno _ _ _ _ (by decide) h
  · exact hno _ _ _ _ (by decide) h
  · exact hno _ _ _ _ (by decide) h
  · exact hno _ _ _ _ (by decide) h
  · exact hno _ _ _ _ (by decide) h
  · exact hno _ _ _ _ (by decide) h
  · exact hno _ _ _ _ (by decide) h
  · exact hno _ _ _ _ (by decide) h

/-- Method `i` of the example class: `nIfs` sequential `if` statements in
the body, spanning three physical lines, with `self` as only parameter. -/
def c1Method (i nIfs : Nat) : Ast :=
  .functionDef ("m" ++ toString i) ["self"]
    (List.replicate nIfs (.ifStmt (.name "flag") [.passStmt] []))
    false (2 + 3 * i) (4 + 3 * i)

/-- Twenty-five methods: ten with two decision points (complexity 3) and
fifteen with one (complexity 2), so WMC = 30 + 30 = 60; no attribute is
assigned anywhere, so TNA = 0. -/
def c1ClassBody : List Ast :=
  (List.range 10).map (fun i => c1Method i 2) ++
  (List.range 15).map (fun i => c1Method (10 + i) 1)

/-- A file declaring one class `Big` with the 25 methods and nothing else:
no calls, no imports, no attribute assignments. -/
def c1Tree : Ast := .module [.classDef "Big" [] c1ClassBody]

/-- The example file's components.  The real-valued inputs are exact here:
every method's parameter list is `["self"]`, whose four distinct equally
frequent characters give parameter entropy exactly 2.0; every method's
nesting depth is 1 (certified by the `popVariance = 0` conjunct of the
counterexample), so the nesting standard deviation is 0; all lines are
`    pass`, so the indentation irregularity is 0 (zero deviation) and the
pep8 heuristic counts 0; the file has no binary operations, so the
Halstead branch returns zeros; the abbreviation density is
`round(1/51, 3) = 0.02` (`Big` is the only 1-3-letter identifier among the
51 collected); history is available with zero commits (the no-commit branch
of `_get_vcs_metrics`, all numbers 0 and empty tables). -/
def c1Components : Components :=
  { filePath := "big.py", lines := List.replicate 77 "    pass", docRanges := [],
    tree := c1Tree, pstdevNesting := 0, meanParamEntropy := 2, totalImports := 0,
    abbrevM := { abbrevDensity := 2/100, abbrevExamples := ["Big"],
                 commentCodeMismatchScore := 0, todoFixmeCount := 0 },
    halstead := { volume := 0, effort := 0, difficulty := 0, estimatedBugs := 0 },
    tests := { testFilesFound := 0, testLines := 0, testFunctionCount := 0,
               unitTestPresence := false },
    semantic := { todoDensity := 0 },
    pep8 := { count := 0, examples := [], usedTool := false },
    indent := { irregularityScore := 0, tabLines := 0, mixedTabs := 0,
                indentStddev := some 0 },
    vcs := .available 0 0 0 0 0 0 [] [] }

set_option maxRecDepth 16000 in
/-- Claim C1, counterexample: the file `c1Tree` contains a class with 25
methods, WMC 60 and 0 attributes (first conjunct, computed by the embedded
`_get_object_oriented_metrics`), yet the smell classifier's output for the
file's NumericalSummary contains NO GodClass finding: the GodClass rule
tests only inter-file coupling (here 0), cross-file call edges (here none)
and average cyclomatic complexity (here `round(36/25, 2) = 1.44`), none of
which this class-shape affects.  The second conjunct certifies the supplied
nesting standard deviation 0 (all per-function nesting depths are 1, so
their population variance is 0); the third that the detector call succeeds
(every compared summary value is numeric). -/
theorem c1_counterexample :
    ((ooClasses (ooMetricsOf c1Tree)).map (fun k => (k.name, k.methods, k.wmc, k.tna))
       = [("Big", 25, 60, 0)]) ∧
    popVariance (perFunctionNestingOf c1Tree) = 0 ∧
    (detectFromSummary (numericalSummaryPairs c1Components)).isSome ∧
    "GodClass" ∉
      ((detectFromSummary (numericalSummaryPairs c1Components)).getD []).map Finding.type := by
  have hguard : (detectorNumKeys.all (fun k => numOk (numericalSummaryPairs c1Components) k)
      && irrOk (numericalSummaryPairs c1Components)) = true := by decide
  refine ⟨by decide, ?_, ?_, ?_⟩
  · have hpfn : perFunctionNestingOf c1Tree = List.replicate 25 1 := by decide
    rw [hpfn]
    unfold popVariance
    rw [if_neg (by decide), List.map_replicate, List.map_replicate]
    norm_num [meanQ, List.sum_replicate, List.length_replicate, nsmul_eq_mul]
  · simp only [detectFromSummary, viewOfPairs, hguard]
    simp
  · simp only [detectFromSummary, viewOfPairs, hguard]
    simp only [if_true, Option.map_some, Option.getD_some]
    refine godclass_not_mem _ ?_ ?_ ?_
    · show numAtD (numericalSummaryPairs c1Components) "inter_file_coupling" 0 ≤ 20
      have hv : numAtD (numericalSummaryPairs c1Components) "inter_file_coupling" 0
          = (((callGraphOf c1Tree).modulesCalled.length : Nat) : ℚ) := rfl
      rw [hv, show (callGraphOf c1Tree).modulesCalled = [] from by decide]
      norm_num
    · show crossCallsOf
        (getValD (numericalSummaryPairs c1Components) "cross_file_call_edges" (.list [])) ≤ 15
      have hc : crossCallsOf
          (getValD (numericalSummaryPairs c1Components) "cross_file_call_edges" (.list []))
          = 0 := by decide
      omega
    · show numAtD (numericalSummaryPairs c1Components) "average_cyclomatic_complexity" 0 ≤ 15
      have hv : numAtD (numericalSummaryPairs c1Components) "average_cyclomatic_complexity" 0
          = roundTo 2 (complexityMetricsOf c1Tree 0).averageCyclomaticPerFunction := rfl
      have h36 : (complexityMetricsOf c1Tree 0).averageCyclomaticPerFunction
          = (36 : ℚ) / 25 := by
        show (((complexityMetricsOf c1Tree 0).estimatedCyclomatic : Nat) : ℚ)
            / (((max 1 (structureMetricsOf c1Tree).functions : Nat) : Nat) : ℚ) = (36 : ℚ) / 25
        rw [show (complexityMetricsOf c1Tree 0).estimatedCyclomatic = 36 from by decide,
            show (structureMetricsOf c1Tree).functions = 25 from by decide]
        norm_num
      rw [hv, h36]
      norm_num [roundTo, bankersRound]

/-- The class record the example file's class map produces, as the
oo-metrics engine records it. -/
def c1BigRecord : OOClassInfo :=
  { name := "Big", methods := 25, publicMethods := 25, wmc := 60, lcom := 0,
    rfc := 0, tna := 0, cbo := 0, dit := 0 }

/-- Claim C1, amended: a class with 25 methods, WMC 60 and 0 attributes is
flagged by the summary's `god_class_proxies` indicator (whose rule is
`methods > 20 and wmc > 50` or `tna > 30 and methods > 15`), and the same
class with WMC 10 is not; it is this proxy list — not the classifier's
GodClass finding, which tests only coupling, cross-file edges and average
complexity (see the counterexample) — that reacts to the claimed
method-count/WMC/attribute shape.  The first conjunct identifies the
summary's `god_class_proxies` entry for every analyzed file; the others
evaluate the proxy rule on the two claimed metric shapes. -/
theorem c1_amended (c : Components) :
    lookupVal (numericalSummaryPairs c) "god_class_proxies"
      = some (.list (((ooClasses (ooMetricsOf c.tree)).filter
          (fun k => (k.methods > 20 && k.wmc > 50) || (k.tna > 30 && k.methods > 15))).map
          (fun k => Val.dict [("name", .s k.name), ("methods", .num k.methods),
                              ("wmc", .num k.wmc), ("tna", .num k.tna)]))) ∧
    (∀ k : OOClassInfo, k.methods = 25 → k.tna = 0 → k.wmc = 60 →
      ((k.methods > 20 && k.wmc > 50) || (k.tna > 30 && k.methods > 15)) = true) ∧
    (∀ k : OOClassInfo, k.methods = 25 → k.tna = 0 → k.wmc = 10 →
      ((k.methods > 20 && k.wmc > 50) || (k.tna > 30 && k.methods > 15)) = false) := by
  refine ⟨rfl, ?_, ?_⟩
  · intro k h1 h2 h3
    simp [h1, h2, h3]
  · intro k h1 h2 h3
    simp [h1, h2, h3]

/-- Claim C1, amended, witness: the proxy-list equation at the concrete
example file, and the proxy rule firing on the concrete 25-method, WMC-60,
0-attribute class record. -/
theorem c1_amended_witness :
    lookupVal (numericalSummaryPairs c1Components) "god_class_proxies"
      = some (.list (((ooClasses (ooMetricsOf c1Components.tree)).filter
          (fun k => (k.methods > 20 && k.wmc > 50) || (k.tna > 30 && k.methods > 15))).map
          (fun k => Val.dict [("name", .s k.name), ("methods", .num k.methods),
                              ("wmc", .num k.wmc), ("tna", .num k.tna)]))) ∧
    ((c1BigRecord.methods > 20 && c1BigRecord.wmc > 50) ||
      (c1BigRecord.tna > 30 && c1BigRecord.methods > 15)) = true :=
  ⟨(c1_amended c1Components).1, (c1_amended c1Components).2.1 c1BigRecord rfl rfl rfl⟩

end CQA
